import Mathlib

/-!
Verification of the scan-ingestion and compliance-correlation pipeline of the
virtual-poam-generator repository: a shallow embedding of
`src/parser/nessus_parser.py` and `src/compliance/nist_mapper.py`, followed by
theorems about the embedded definitions. Python strings are modelled as Lean
`String`, Python `None` for a text field as `Option.none`, Python exceptions
as `Except.error`, and the Python dicts (insertion-ordered, unique keys) as
association lists searched front to back.
-/

namespace VPoam

/-! ## String helpers modelling the Python string primitives used -/

/-- Models Python `str.lower()` on the ASCII range (`Char.toLower` lowers only
ASCII letters, which covers every keyword the source tables use). -/
def pyLower (s : String) : String := String.mk (s.data.map Char.toLower)

/-- Models Python `str.upper()` on the ASCII range. -/
def pyUpper (s : String) : String := String.mk (s.data.map Char.toUpper)

/-- Models Python `str.strip()`: drop whitespace from both ends (restricted to
the ASCII whitespace recognised by `Char.isWhitespace`). -/
def pyStrip (s : String) : String :=
  String.mk (((s.data.dropWhile Char.isWhitespace).reverse.dropWhile Char.isWhitespace).reverse)

/-- `listStartsWith needle hay` is true when `needle` is a prefix of `hay`. -/
def listStartsWith : List Char → List Char → Bool
  | [], _ => true
  | _ :: _, [] => false
  | a :: as, b :: bs => a == b && listStartsWith as bs

/-- `containsSub hay needle` is true when `needle` occurs contiguously in
`hay`; models the Python substring test `needle in hay`. -/
def containsSub (hay needle : List Char) : Bool :=
  match hay with
  | [] => listStartsWith needle []
  | _ :: t => listStartsWith needle hay || containsSub t needle

/-- Models the Python membership test `needle in hay` on strings. -/
def strIn (needle hay : String) : Bool := containsSub hay.data needle.data

/-- Looks a key up in an association list modelling a Python dict (the source
dicts all have distinct keys, so front-to-back search agrees with the dict);
models `d.get(key)`. -/
def dictGet {α : Type} (d : List (String × α)) (key : String) : Option α :=
  (d.find? (fun p => p.1 == key)).map (fun p => p.2)

/-- Models `d.get(key, [])` for dicts of control-identifier lists. -/
def dictGetD (d : List (String × List String)) (key : String) : List String :=
  (dictGet d key).getD []

/-! ## Data model of `nist_mapper.py` -/

/-- Embeds the `NISTControl` dataclass. -/
structure NISTControl where
  control_id : String
  control_name : String
  family : String
  family_id : String
  priority : String
  baseline : List String
  description : String
  related_controls : List String
deriving DecidableEq


/-- One `self.controls.update(...)` block of `_initialize_controls` (AC family). -/
def controls_block_AC : List (String × NISTControl) := [
  ("AC-1", { control_id := "AC-1", control_name := "Policy and Procedures", family := "Access Control", family_id := "AC", priority := "P1", baseline := ["LOW", "MODERATE", "HIGH"], description := "Develop, document, and disseminate access control policy", related_controls := [] }),
  ("AC-2", { control_id := "AC-2", control_name := "Account Management", family := "Access Control", family_id := "AC", priority := "P1", baseline := ["LOW", "MODERATE", "HIGH"], description := "Manage system accounts including creation, activation, modification, review, and termination", related_controls := ["AC-3", "AC-5", "AC-6", "AU-9", "IA-2", "IA-4", "MA-3", "MA-5", "PE-2", "PS-4", "PS-5"] }),
  ("AC-3", { control_id := "AC-3", control_name := "Access Enforcement", family := "Access Control", family_id := "AC", priority := "P1", baseline := ["LOW", "MODERATE", "HIGH"], description := "Enforce approved authorizations for logical access to information and system resources", related_controls := ["AC-2", "AC-4", "AC-5", "AC-6", "AC-16", "AC-17", "AC-18", "AC-19", "AC-24", "AU-9", "CM-5", "CM-11", "IA-2", "MA-3", "MA-4", "PE-3", "SC-4"] }),
  ("AC-4", { control_id := "AC-4", control_name := "Information Flow Enforcement", family := "Access Control", family_id := "AC", priority := "P1", baseline := ["MODERATE", "HIGH"], description := "Enforce approved authorizations for controlling information flows within and between systems", related_controls := [] }),
  ("AC-5", { control_id := "AC-5", control_name := "Separation of Duties", family := "Access Control", family_id := "AC", priority := "P1", baseline := ["MODERATE", "HIGH"], description := "Separate duties of individuals to prevent malicious activity", related_controls := [] }),
  ("AC-6", { control_id := "AC-6", control_name := "Least Privilege", family := "Access Control", family_id := "AC", priority := "P1", baseline := ["LOW", "MODERATE", "HIGH"], description := "Employ least privilege principle allowing only authorized accesses necessary for assigned tasks", related_controls := ["AC-2", "AC-3", "AC-5", "CM-5", "CM-11", "PL-2", "PM-12", "SA-8", "SC-38"] }),
  ("AC-7", { control_id := "AC-7", control_name := "Unsuccessful Logon Attempts", family := "Access Control", family_id := "AC", priority := "P1", baseline := ["LOW", "MODERATE", "HIGH"], description := "Enforce limit on consecutive invalid logon attempts and take protective action", related_controls := [] }),
  ("AC-8", { control_id := "AC-8", control_name := "System Use Notification", family := "Access Control", family_id := "AC", priority := "P1", baseline := ["LOW", "MODERATE", "HIGH"], description := "Display system use notification message before granting access", related_controls := [] }),
  ("AC-10", { control_id := "AC-10", control_name := "Concurrent Session Control", family := "Access Control", family_id := "AC", priority := "P2", baseline := ["HIGH"], description := "Limit the number of concurrent sessions for each account", related_controls := [] }),
  ("AC-11", { control_id := "AC-11", control_name := "Device Lock", family := "Access Control", family_id := "AC", priority := "P1", baseline := ["MODERATE", "HIGH"], description := "Prevent further access by initiating device lock after period of inactivity", related_controls := [] }),
  ("AC-12", { control_id := "AC-12", control_name := "Session Termination", family := "Access Control", family_id := "AC", priority := "P2", baseline := ["MODERATE", "HIGH"], description := "Automatically terminate user session after conditions or time period", related_controls := [] }),
  ("AC-14", { control_id := "AC-14", control_name := "Permitted Actions Without Identification or Authentication", family := "Access Control", family_id := "AC", priority := "P1", baseline := ["LOW", "MODERATE", "HIGH"], description := "Identify actions permitted without identification or authentication", related_controls := [] }),
  ("AC-17", { control_id := "AC-17", control_name := "Remote Access", family := "Access Control", family_id := "AC", priority := "P1", baseline := ["LOW", "MODERATE", "HIGH"], description := "Establish usage restrictions and configuration requirements for remote access", related_controls := ["AC-2", "AC-3", "AC-4", "AC-18", "AC-19", "AC-20", "CA-3", "CM-10", "IA-2", "IA-3", "IA-8", "MA-4", "PE-17", "PL-2", "SC-10", "SC-12", "SC-13", "SI-4"] }),
  ("AC-18", { control_id := "AC-18", control_name := "Wireless Access", family := "Access Control", family_id := "AC", priority := "P1", baseline := ["LOW", "MODERATE", "HIGH"], description := "Establish usage restrictions and configuration requirements for wireless access", related_controls := [] }),
  ("AC-19", { control_id := "AC-19", control_name := "Access Control for Mobile Devices", family := "Access Control", family_id := "AC", priority := "P1", baseline := ["LOW", "MODERATE", "HIGH"], description := "Establish usage restrictions and configuration requirements for mobile devices", related_controls := [] }),
  ("AC-20", { control_id := "AC-20", control_name := "Use of External Systems", family := "Access Control", family_id := "AC", priority := "P1", baseline := ["LOW", "MODERATE", "HIGH"], description := "Establish terms and conditions for use of external systems", related_controls := [] }),
  ("AC-21", { control_id := "AC-21", control_name := "Information Sharing", family := "Access Control", family_id := "AC", priority := "P2", baseline := ["MODERATE", "HIGH"], description := "Facilitate information sharing by enabling authorized users to determine access", related_controls := [] }),
  ("AC-22", { control_id := "AC-22", control_name := "Publicly Accessible Content", family := "Access Control", family_id := "AC", priority := "P2", baseline := ["LOW", "MODERATE", "HIGH"], description := "Designate individuals authorized to post publicly accessible content", related_controls := [] })
]

/-- One `self.controls.update(...)` block of `_initialize_controls` (AT family). -/
def controls_block_AT : List (String × NISTControl) := [
  ("AT-1", { control_id := "AT-1", control_name := "Policy and Procedures", family := "Awareness and Training", family_id := "AT", priority := "P1", baseline := ["LOW", "MODERATE", "HIGH"], description := "Develop security awareness and training policy", related_controls := [] }),
  ("AT-2", { control_id := "AT-2", control_name := "Literacy Training and Awareness", family := "Awareness and Training", family_id := "AT", priority := "P1", baseline := ["LOW", "MODERATE", "HIGH"], description := "Provide security and privacy literacy training to users", related_controls := [] }),
  ("AT-3", { control_id := "AT-3", control_name := "Role-Based Training", family := "Awareness and Training", family_id := "AT", priority := "P1", baseline := ["LOW", "MODERATE", "HIGH"], description := "Provide role-based security and privacy training", related_controls := [] }),
  ("AT-4", { control_id := "AT-4", control_name := "Training Records", family := "Awareness and Training", family_id := "AT", priority := "P3", baseline := ["LOW", "MODERATE", "HIGH"], description := "Document and monitor individual training activities", related_controls := [] })
]

/-- One `self.controls.update(...)` block of `_initialize_controls` (AU family). -/
def controls_block_AU : List (String × NISTControl) := [
  ("AU-1", { control_id := "AU-1", control_name := "Policy and Procedures", family := "Audit and Accountability", family_id := "AU", priority := "P1", baseline := ["LOW", "MODERATE", "HIGH"], description := "Develop audit and accountability policy", related_controls := [] }),
  ("AU-2", { control_id := "AU-2", control_name := "Event Logging", family := "Audit and Accountability", family_id := "AU", priority := "P1", baseline := ["LOW", "MODERATE", "HIGH"], description := "Identify event types for logging within the system", related_controls := ["AC-2", "AC-3", "AC-6", "AC-7", "AC-8", "AC-16", "AU-3", "AU-4", "AU-5", "AU-6", "AU-7", "AU-11", "AU-12", "CM-3", "CM-5", "MA-4", "MP-4", "PE-3", "PM-21", "PT-2", "RA-8", "SA-8", "SC-7", "SC-18", "SI-3", "SI-4", "SI-7", "SI-10"] }),
  ("AU-3", { control_id := "AU-3", control_name := "Content of Audit Records", family := "Audit and Accountability", family_id := "AU", priority := "P1", baseline := ["LOW", "MODERATE", "HIGH"], description := "Ensure audit records contain information to establish what, when, where, source, outcome, and identity", related_controls := [] }),
  ("AU-4", { control_id := "AU-4", control_name := "Audit Log Storage Capacity", family := "Audit and Accountability", family_id := "AU", priority := "P1", baseline := ["LOW", "MODERATE", "HIGH"], description := "Allocate audit log storage capacity to accommodate log requirements", related_controls := [] }),
  ("AU-5", { control_id := "AU-5", control_name := "Response to Audit Logging Process Failures", family := "Audit and Accountability", family_id := "AU", priority := "P1", baseline := ["LOW", "MODERATE", "HIGH"], description := "Alert personnel on audit logging process failures", related_controls := [] }),
  ("AU-6", { control_id := "AU-6", control_name := "Audit Record Review, Analysis, and Reporting", family := "Audit and Accountability", family_id := "AU", priority := "P1", baseline := ["LOW", "MODERATE", "HIGH"], description := "Review and analyze system audit records for indications of inappropriate activity", related_controls := ["AC-2", "AC-3", "AC-5", "AC-6", "AC-7", "AC-17", "AU-7", "AU-16", "CA-2", "CA-7", "IA-3", "IR-5", "IR-6", "MA-4", "PE-3", "PE-6", "RA-5", "SA-8", "SC-7", "SI-3", "SI-4", "SI-7"] }),
  ("AU-7", { control_id := "AU-7", control_name := "Audit Record Reduction and Report Generation", family := "Audit and Accountability", family_id := "AU", priority := "P2", baseline := ["MODERATE", "HIGH"], description := "Provide audit record reduction and report generation capability", related_controls := [] }),
  ("AU-8", { control_id := "AU-8", control_name := "Time Stamps", family := "Audit and Accountability", family_id := "AU", priority := "P1", baseline := ["LOW", "MODERATE", "HIGH"], description := "Use internal system clocks to generate time stamps for audit records", related_controls := [] }),
  ("AU-9", { control_id := "AU-9", control_name := "Protection of Audit Information", family := "Audit and Accountability", family_id := "AU", priority := "P1", baseline := ["LOW", "MODERATE", "HIGH"], description := "Protect audit information and tools from unauthorized access and modification", related_controls := ["AC-3", "AC-6", "AU-6", "AU-11", "AU-14", "AU-15", "MP-2", "MP-4", "PE-2", "PE-3", "PE-6", "SA-8", "SC-8", "SI-4"] }),
  ("AU-10", { control_id := "AU-10", control_name := "Non-repudiation", family := "Audit and Accountability", family_id := "AU", priority := "P1", baseline := ["HIGH"], description := "Provide irrefutable evidence that an individual performed specific actions", related_controls := [] }),
  ("AU-11", { control_id := "AU-11", control_name := "Audit Record Retention", family := "Audit and Accountability", family_id := "AU", priority := "P3", baseline := ["LOW", "MODERATE", "HIGH"], description := "Retain audit records for defined time period to support investigations", related_controls := [] }),
  ("AU-12", { control_id := "AU-12", control_name := "Audit Record Generation", family := "Audit and Accountability", family_id := "AU", priority := "P1", baseline := ["LOW", "MODERATE", "HIGH"], description := "Provide audit record generation capability for defined event types", related_controls := [] })
]

/-- One `self.controls.update(...)` block of `_initialize_controls` (CA family). -/
def controls_block_CA : List (String × NISTControl) := [
  ("CA-1", { control_id := "CA-1", control_name := "Policy and Procedures", family := "Assessment, Authorization, and Monitoring", family_id := "CA", priority := "P1", baseline := ["LOW", "MODERATE", "HIGH"], description := "Develop assessment, authorization, and monitoring policy", related_controls := [] }),
  ("CA-2", { control_id := "CA-2", control_name := "Control Assessments", family := "Assessment, Authorization, and Monitoring", family_id := "CA", priority := "P1", baseline := ["LOW", "MODERATE", "HIGH"], description := "Develop control assessment plan and assess controls in the system", related_controls := ["CA-5", "CA-6", "CA-7", "PM-9", "RA-5", "SA-11", "SI-4"] }),
  ("CA-3", { control_id := "CA-3", control_name := "Information Exchange", family := "Assessment, Authorization, and Monitoring", family_id := "CA", priority := "P1", baseline := ["LOW", "MODERATE", "HIGH"], description := "Approve and manage exchange of information between systems", related_controls := [] }),
  ("CA-5", { control_id := "CA-5", control_name := "Plan of Action and Milestones", family := "Assessment, Authorization, and Monitoring", family_id := "CA", priority := "P3", baseline := ["LOW", "MODERATE", "HIGH"], description := "Develop plan of action and milestones for planned remedial actions", related_controls := ["CA-2", "CA-7", "PM-4", "PM-9", "RA-7", "SI-2", "SI-12"] }),
  ("CA-6", { control_id := "CA-6", control_name := "Authorization", family := "Assessment, Authorization, and Monitoring", family_id := "CA", priority := "P1", baseline := ["LOW", "MODERATE", "HIGH"], description := "Assign authorizing official and ensure system authorization before operations", related_controls := [] }),
  ("CA-7", { control_id := "CA-7", control_name := "Continuous Monitoring", family := "Assessment, Authorization, and Monitoring", family_id := "CA", priority := "P1", baseline := ["LOW", "MODERATE", "HIGH"], description := "Develop continuous monitoring strategy and implement continuous monitoring program", related_controls := ["AC-2", "AC-6", "AC-17", "AT-4", "AU-6", "AU-13", "CA-2", "CA-5", "CA-6", "CM-3", "CM-4", "IA-5", "PE-3", "PE-6", "PE-14", "PE-16", "PL-2", "PM-4", "PM-6", "PM-9", "PM-10", "PM-12", "PM-14", "PM-23", "PM-28", "PM-31", "RA-3", "RA-5", "RA-7", "SA-8", "SA-9", "SA-11", "SC-5", "SC-7", "SC-18", "SC-38", "SC-43", "SI-3", "SI-4", "SI-12", "SR-2", "SR-4"] }),
  ("CA-8", { control_id := "CA-8", control_name := "Penetration Testing", family := "Assessment, Authorization, and Monitoring", family_id := "CA", priority := "P2", baseline := ["HIGH"], description := "Conduct penetration testing at organization-defined frequency", related_controls := [] }),
  ("CA-9", { control_id := "CA-9", control_name := "Internal System Connections", family := "Assessment, Authorization, and Monitoring", family_id := "CA", priority := "P2", baseline := ["LOW", "MODERATE", "HIGH"], description := "Authorize internal connections of system components", related_controls := [] })
]

/-- One `self.controls.update(...)` block of `_initialize_controls` (CM family). -/
def controls_block_CM : List (String × NISTControl) := [
  ("CM-1", { control_id := "CM-1", control_name := "Policy and Procedures", family := "Configuration Management", family_id := "CM", priority := "P1", baseline := ["LOW", "MODERATE", "HIGH"], description := "Develop configuration management policy", related_controls := [] }),
  ("CM-2", { control_id := "CM-2", control_name := "Baseline Configuration", family := "Configuration Management", family_id := "CM", priority := "P1", baseline := ["LOW", "MODERATE", "HIGH"], description := "Develop and maintain current baseline configuration under configuration control", related_controls := ["AC-19", "AU-6", "CA-9", "CM-1", "CM-3", "CM-5", "CM-6", "CM-8", "CM-9", "CP-9", "CP-10", "CP-12", "MA-4", "PL-8", "PM-5", "SA-8", "SA-10", "SA-15", "SC-18"] }),
  ("CM-3", { control_id := "CM-3", control_name := "Configuration Change Control", family := "Configuration Management", family_id := "CM", priority := "P1", baseline := ["MODERATE", "HIGH"], description := "Determine and approve configuration-controlled changes with reviews", related_controls := ["CA-7", "CM-2", "CM-4", "CM-5", "CM-6", "CM-9", "CM-11", "IA-3", "MA-2", "PE-16", "PT-6", "RA-8", "SA-8", "SA-10", "SC-28", "SC-34", "SC-37", "SI-2", "SI-3", "SI-4", "SI-7", "SI-10", "SR-11"] }),
  ("CM-4", { control_id := "CM-4", control_name := "Impact Analyses", family := "Configuration Management", family_id := "CM", priority := "P2", baseline := ["MODERATE", "HIGH"], description := "Analyze changes to determine potential security and privacy impacts", related_controls := [] }),
  ("CM-5", { control_id := "CM-5", control_name := "Access Restrictions for Change", family := "Configuration Management", family_id := "CM", priority := "P1", baseline := ["MODERATE", "HIGH"], description := "Define and enforce access restrictions for changes to the system", related_controls := [] }),
  ("CM-6", { control_id := "CM-6", control_name := "Configuration Settings", family := "Configuration Management", family_id := "CM", priority := "P1", baseline := ["LOW", "MODERATE", "HIGH"], description := "Establish and document configuration settings using secure configurations", related_controls := ["AC-3", "AC-19", "AU-2", "AU-6", "CA-7", "CA-9", "CM-2", "CM-3", "CM-5", "CM-7", "CM-11", "CP-7", "CP-9", "CP-10", "IA-3", "IA-5", "PL-8", "PL-9", "RA-5", "SA-4", "SA-5", "SA-8", "SA-9", "SC-18", "SC-28", "SC-43", "SI-2", "SI-4", "SI-6"] }),
  ("CM-7", { control_id := "CM-7", control_name := "Least Functionality", family := "Configuration Management", family_id := "CM", priority := "P1", baseline := ["LOW", "MODERATE", "HIGH"], description := "Configure systems to provide only essential capabilities and restrict functions, ports, protocols, and services", related_controls := ["AC-3", "AC-4", "CM-2", "CM-5", "CM-6", "CM-11", "RA-5", "SA-4", "SA-5", "SA-8", "SA-9", "SA-15", "SC-7", "SC-37", "SI-4"] }),
  ("CM-8", { control_id := "CM-8", control_name := "System Component Inventory", family := "Configuration Management", family_id := "CM", priority := "P1", baseline := ["LOW", "MODERATE", "HIGH"], description := "Develop and document inventory of system components", related_controls := ["CM-2", "CM-7", "CM-9", "CM-10", "CM-11", "CM-13", "CP-2", "CP-9", "MA-2", "MA-6", "PE-20", "PL-9", "PM-5", "RA-9", "SA-4", "SA-5", "SI-2", "SR-4"] }),
  ("CM-9", { control_id := "CM-9", control_name := "Configuration Management Plan", family := "Configuration Management", family_id := "CM", priority := "P1", baseline := ["MODERATE", "HIGH"], description := "Develop and implement configuration management plan", related_controls := [] }),
  ("CM-10", { control_id := "CM-10", control_name := "Software Usage Restrictions", family := "Configuration Management", family_id := "CM", priority := "P2", baseline := ["LOW", "MODERATE", "HIGH"], description := "Use software in accordance with contract agreements and copyright laws", related_controls := [] }),
  ("CM-11", { control_id := "CM-11", control_name := "User-Installed Software", family := "Configuration Management", family_id := "CM", priority := "P1", baseline := ["LOW", "MODERATE", "HIGH"], description := "Establish policies governing installation of software by users", related_controls := [] })
]

/-- One `self.controls.update(...)` block of `_initialize_controls` (CP family). -/
def controls_block_CP : List (String × NISTControl) := [
  ("CP-1", { control_id := "CP-1", control_name := "Policy and Procedures", family := "Contingency Planning", family_id := "CP", priority := "P1", baseline := ["LOW", "MODERATE", "HIGH"], description := "Develop contingency planning policy", related_controls := [] }),
  ("CP-2", { control_id := "CP-2", control_name := "Contingency Plan", family := "Contingency Planning", family_id := "CP", priority := "P1", baseline := ["LOW", "MODERATE", "HIGH"], description := "Develop contingency plan addressing roles, responsibilities, and recovery objectives", related_controls := [] }),
  ("CP-3", { control_id := "CP-3", control_name := "Contingency Training", family := "Contingency Planning", family_id := "CP", priority := "P2", baseline := ["LOW", "MODERATE", "HIGH"], description := "Provide contingency training to system users", related_controls := [] }),
  ("CP-4", { control_id := "CP-4", control_name := "Contingency Plan Testing", family := "Contingency Planning", family_id := "CP", priority := "P2", baseline := ["LOW", "MODERATE", "HIGH"], description := "Test contingency plan to determine effectiveness", related_controls := [] }),
  ("CP-6", { control_id := "CP-6", control_name := "Alternate Storage Site", family := "Contingency Planning", family_id := "CP", priority := "P1", baseline := ["MODERATE", "HIGH"], description := "Establish alternate storage site for backup information", related_controls := [] }),
  ("CP-7", { control_id := "CP-7", control_name := "Alternate Processing Site", family := "Contingency Planning", family_id := "CP", priority := "P1", baseline := ["MODERATE", "HIGH"], description := "Establish alternate processing site for operations transfer", related_controls := [] }),
  ("CP-8", { control_id := "CP-8", control_name := "Telecommunications Services", family := "Contingency Planning", family_id := "CP", priority := "P1", baseline := ["MODERATE", "HIGH"], description := "Establish alternate telecommunications services", related_controls := [] }),
  ("CP-9", { control_id := "CP-9", control_name := "System Backup", family := "Contingency Planning", family_id := "CP", priority := "P1", baseline := ["LOW", "MODERATE", "HIGH"], description := "Conduct backups of user-level and system-level information", related_controls := [] }),
  ("CP-10", { control_id := "CP-10", control_name := "System Recovery and Reconstitution", family := "Contingency Planning", family_id := "CP", priority := "P1", baseline := ["LOW", "MODERATE", "HIGH"], description := "Provide for recovery and reconstitution of system to known state", related_controls := [] })
]

/-- One `self.controls.update(...)` block of `_initialize_controls` (IA family). -/
def controls_block_IA : List (String × NISTControl) := [
  ("IA-1", { control_id := "IA-1", control_name := "Policy and Procedures", family := "Identification and Authentication", family_id := "IA", priority := "P1", baseline := ["LOW", "MODERATE", "HIGH"], description := "Develop identification and authentication policy", related_controls := [] }),
  ("IA-2", { control_id := "IA-2", control_name := "Identification and Authentication (Organizational Users)", family := "Identification and Authentication", family_id := "IA", priority := "P1", baseline := ["LOW", "MODERATE", "HIGH"], description := "Uniquely identify and authenticate organizational users", related_controls := ["AC-2", "AC-3", "AC-4", "AC-14", "AC-17", "AC-18", "AU-1", "AU-6", "IA-4", "IA-5", "IA-8", "MA-4", "MA-5", "PE-2", "PL-4", "SA-4", "SA-8"] }),
  ("IA-3", { control_id := "IA-3", control_name := "Device Identification and Authentication", family := "Identification and Authentication", family_id := "IA", priority := "P1", baseline := ["MODERATE", "HIGH"], description := "Uniquely identify and authenticate devices before connection", related_controls := [] }),
  ("IA-4", { control_id := "IA-4", control_name := "Identifier Management", family := "Identification and Authentication", family_id := "IA", priority := "P1", baseline := ["LOW", "MODERATE", "HIGH"], description := "Manage system identifiers by receiving authorization and ensuring uniqueness", related_controls := [] }),
  ("IA-5", { control_id := "IA-5", control_name := "Authenticator Management", family := "Identification and Authentication", family_id := "IA", priority := "P1", baseline := ["LOW", "MODERATE", "HIGH"], description := "Manage system authenticators by verifying identity and ensuring sufficient strength", related_controls := ["AC-3", "AC-6", "CM-6", "IA-2", "IA-4", "IA-7", "IA-8", "IA-9", "MA-4", "PE-2", "PL-4", "SC-12", "SC-13"] }),
  ("IA-6", { control_id := "IA-6", control_name := "Authentication Feedback", family := "Identification and Authentication", family_id := "IA", priority := "P2", baseline := ["LOW", "MODERATE", "HIGH"], description := "Obscure feedback of authentication information during authentication", related_controls := [] }),
  ("IA-7", { control_id := "IA-7", control_name := "Cryptographic Module Authentication", family := "Identification and Authentication", family_id := "IA", priority := "P1", baseline := ["LOW", "MODERATE", "HIGH"], description := "Implement mechanisms for authentication to cryptographic modules", related_controls := [] }),
  ("IA-8", { control_id := "IA-8", control_name := "Identification and Authentication (Non-Organizational Users)", family := "Identification and Authentication", family_id := "IA", priority := "P1", baseline := ["LOW", "MODERATE", "HIGH"], description := "Uniquely identify and authenticate non-organizational users", related_controls := [] }),
  ("IA-11", { control_id := "IA-11", control_name := "Re-Authentication", family := "Identification and Authentication", family_id := "IA", priority := "P1", baseline := ["MODERATE", "HIGH"], description := "Require users to re-authenticate when defined circumstances occur", related_controls := [] }),
  ("IA-12", { control_id := "IA-12", control_name := "Identity Proofing", family := "Identification and Authentication", family_id := "IA", priority := "P1", baseline := ["MODERATE", "HIGH"], description := "Identity proof users before issuing credentials or accounts", related_controls := [] })
]

/-- One `self.controls.update(...)` block of `_initialize_controls` (IR family). -/
def controls_block_IR : List (String × NISTControl) := [
  ("IR-1", { control_id := "IR-1", control_name := "Policy and Procedures", family := "Incident Response", family_id := "IR", priority := "P1", baseline := ["LOW", "MODERATE", "HIGH"], description := "Develop incident response policy", related_controls := [] }),
  ("IR-2", { control_id := "IR-2", control_name := "Incident Response Training", family := "Incident Response", family_id := "IR", priority := "P2", baseline := ["LOW", "MODERATE", "HIGH"], description := "Provide incident response training to system users", related_controls := [] }),
  ("IR-3", { control_id := "IR-3", control_name := "Incident Response Testing", family := "Incident Response", family_id := "IR", priority := "P2", baseline := ["MODERATE", "HIGH"], description := "Test incident response capability to determine effectiveness", related_controls := [] }),
  ("IR-4", { control_id := "IR-4", control_name := "Incident Handling", family := "Incident Response", family_id := "IR", priority := "P1", baseline := ["LOW", "MODERATE", "HIGH"], description := "Implement incident handling capability for security incidents", related_controls := ["AC-19", "AU-6", "AU-7", "CM-6", "CP-2", "CP-4", "IR-2", "IR-3", "IR-5", "IR-6", "IR-8", "PE-6", "PL-2", "PM-12", "SA-8", "SC-5", "SC-7", "SI-3", "SI-4", "SI-7"] }),
  ("IR-5", { control_id := "IR-5", control_name := "Incident Monitoring", family := "Incident Response", family_id := "IR", priority := "P1", baseline := ["LOW", "MODERATE", "HIGH"], description := "Track and document system security incidents", related_controls := [] }),
  ("IR-6", { control_id := "IR-6", control_name := "Incident Reporting", family := "Incident Response", family_id := "IR", priority := "P1", baseline := ["LOW", "MODERATE", "HIGH"], description := "Require personnel to report suspected security incidents", related_controls := [] }),
  ("IR-7", { control_id := "IR-7", control_name := "Incident Response Assistance", family := "Incident Response", family_id := "IR", priority := "P2", baseline := ["LOW", "MODERATE", "HIGH"], description := "Provide incident response support resource to system users", related_controls := [] }),
  ("IR-8", { control_id := "IR-8", control_name := "Incident Response Plan", family := "Incident Response", family_id := "IR", priority := "P1", baseline := ["LOW", "MODERATE", "HIGH"], description := "Develop incident response plan providing roadmap for implementation", related_controls := [] })
]

/-- One `self.controls.update(...)` block of `_initialize_controls` (MA family). -/
def controls_block_MA : List (String × NISTControl) := [
  ("MA-1", { control_id := "MA-1", control_name := "Policy and Procedures", family := "Maintenance", family_id := "MA", priority := "P1", baseline := ["LOW", "MODERATE", "HIGH"], description := "Develop maintenance policy", related_controls := [] }),
  ("MA-2", { control_id := "MA-2", control_name := "Controlled Maintenance", family := "Maintenance", family_id := "MA", priority := "P2", baseline := ["LOW", "MODERATE", "HIGH"], description := "Schedule, document, and review records of maintenance and repair", related_controls := [] }),
  ("MA-3", { control_id := "MA-3", control_name := "Maintenance Tools", family := "Maintenance", family_id := "MA", priority := "P2", baseline := ["MODERATE", "HIGH"], description := "Approve, control, and monitor maintenance tools", related_controls := [] }),
  ("MA-4", { control_id := "MA-4", control_name := "Nonlocal Maintenance", family := "Maintenance", family_id := "MA", priority := "P1", baseline := ["LOW", "MODERATE", "HIGH"], description := "Approve and monitor nonlocal maintenance and diagnostic activities", related_controls := [] }),
  ("MA-5", { control_id := "MA-5", control_name := "Maintenance Personnel", family := "Maintenance", family_id := "MA", priority := "P2", baseline := ["LOW", "MODERATE", "HIGH"], description := "Establish process for maintenance personnel authorization", related_controls := [] }),
  ("MA-6", { control_id := "MA-6", control_name := "Timely Maintenance", family := "Maintenance", family_id := "MA", priority := "P2", baseline := ["MODERATE", "HIGH"], description := "Obtain maintenance support within defined time period of failure", related_controls := [] })
]

/-- One `self.controls.update(...)` block of `_initialize_controls` (MP family). -/
def controls_block_MP : List (String × NISTControl) := [
  ("MP-1", { control_id := "MP-1", control_name := "Policy and Procedures", family := "Media Protection", family_id := "MP", priority := "P1", baseline := ["LOW", "MODERATE", "HIGH"], description := "Develop media protection policy", related_controls := [] }),
  ("MP-2", { control_id := "MP-2", control_name := "Media Access", family := "Media Protection", family_id := "MP", priority := "P1", baseline := ["LOW", "MODERATE", "HIGH"], description := "Restrict access to digital and non-digital media", related_controls := [] }),
  ("MP-3", { control_id := "MP-3", control_name := "Media Marking", family := "Media Protection", family_id := "MP", priority := "P2", baseline := ["MODERATE", "HIGH"], description := "Mark system media indicating distribution limitations", related_controls := [] }),
  ("MP-4", { control_id := "MP-4", control_name := "Media Storage", family := "Media Protection", family_id := "MP", priority := "P1", baseline := ["MODERATE", "HIGH"], description := "Physically control and securely store system media", related_controls := [] }),
  ("MP-5", { control_id := "MP-5", control_name := "Media Transport", family := "Media Protection", family_id := "MP", priority := "P1", baseline := ["MODERATE", "HIGH"], description := "Protect and control system media during transport", related_controls := [] }),
  ("MP-6", { control_id := "MP-6", control_name := "Media Sanitization", family := "Media Protection", family_id := "MP", priority := "P1", baseline := ["LOW", "MODERATE", "HIGH"], description := "Sanitize system media prior to disposal, release, or reuse", related_controls := [] }),
  ("MP-7", { control_id := "MP-7", control_name := "Media Use", family := "Media Protection", family_id := "MP", priority := "P1", baseline := ["LOW", "MODERATE", "HIGH"], description := "Restrict or prohibit use of defined types of system media", related_controls := [] })
]

/-- One `self.controls.update(...)` block of `_initialize_controls` (PE family). -/
def controls_block_PE : List (String × NISTControl) := [
  ("PE-1", { control_id := "PE-1", control_name := "Policy and Procedures", family := "Physical and Environmental Protection", family_id := "PE", priority := "P1", baseline := ["LOW", "MODERATE", "HIGH"], description := "Develop physical and environmental protection policy", related_controls := [] }),
  ("PE-2", { control_id := "PE-2", control_name := "Physical Access Authorizations", family := "Physical and Environmental Protection", family_id := "PE", priority := "P1", baseline := ["LOW", "MODERATE", "HIGH"], description := "Develop and maintain list of individuals with authorized facility access", related_controls := [] }),
  ("PE-3", { control_id := "PE-3", control_name := "Physical Access Control", family := "Physical and Environmental Protection", family_id := "PE", priority := "P1", baseline := ["LOW", "MODERATE", "HIGH"], description := "Enforce physical access authorizations at entry and exit points", related_controls := [] }),
  ("PE-4", { control_id := "PE-4", control_name := "Access Control for Transmission", family := "Physical and Environmental Protection", family_id := "PE", priority := "P1", baseline := ["MODERATE", "HIGH"], description := "Control physical access to system transmission lines", related_controls := [] }),
  ("PE-5", { control_id := "PE-5", control_name := "Access Control for Output Devices", family := "Physical and Environmental Protection", family_id := "PE", priority := "P2", baseline := ["MODERATE", "HIGH"], description := "Control physical access to output devices", related_controls := [] }),
  ("PE-6", { control_id := "PE-6", control_name := "Monitoring Physical Access", family := "Physical and Environmental Protection", family_id := "PE", priority := "P1", baseline := ["LOW", "MODERATE", "HIGH"], description := "Monitor physical access to detect and respond to incidents", related_controls := [] }),
  ("PE-8", { control_id := "PE-8", control_name := "Visitor Access Records", family := "Physical and Environmental Protection", family_id := "PE", priority := "P3", baseline := ["LOW", "MODERATE", "HIGH"], description := "Maintain visitor access records to the facility", related_controls := [] }),
  ("PE-9", { control_id := "PE-9", control_name := "Power Equipment and Cabling", family := "Physical and Environmental Protection", family_id := "PE", priority := "P1", baseline := ["MODERATE", "HIGH"], description := "Protect power equipment and cabling from damage", related_controls := [] }),
  ("PE-10", { control_id := "PE-10", control_name := "Emergency Shutoff", family := "Physical and Environmental Protection", family_id := "PE", priority := "P1", baseline := ["MODERATE", "HIGH"], description := "Provide capability to shut off power to system in emergencies", related_controls := [] }),
  ("PE-11", { control_id := "PE-11", control_name := "Emergency Power", family := "Physical and Environmental Protection", family_id := "PE", priority := "P1", baseline := ["MODERATE", "HIGH"], description := "Provide uninterruptible power supply for orderly shutdown", related_controls := [] }),
  ("PE-12", { control_id := "PE-12", control_name := "Emergency Lighting", family := "Physical and Environmental Protection", family_id := "PE", priority := "P1", baseline := ["LOW", "MODERATE", "HIGH"], description := "Employ and maintain automatic emergency lighting", related_controls := [] }),
  ("PE-13", { control_id := "PE-13", control_name := "Fire Protection", family := "Physical and Environmental Protection", family_id := "PE", priority := "P1", baseline := ["LOW", "MODERATE", "HIGH"], description := "Employ and maintain fire detection and suppression systems", related_controls := [] }),
  ("PE-14", { control_id := "PE-14", control_name := "Environmental Controls", family := "Physical and Environmental Protection", family_id := "PE", priority := "P1", baseline := ["LOW", "MODERATE", "HIGH"], description := "Maintain temperature and humidity levels within facility", related_controls := [] }),
  ("PE-15", { control_id := "PE-15", control_name := "Water Damage Protection", family := "Physical and Environmental Protection", family_id := "PE", priority := "P1", baseline := ["LOW", "MODERATE", "HIGH"], description := "Protect system from damage from water leakage", related_controls := [] }),
  ("PE-16", { control_id := "PE-16", control_name := "Delivery and Removal", family := "Physical and Environmental Protection", family_id := "PE", priority := "P2", baseline := ["LOW", "MODERATE", "HIGH"], description := "Authorize, monitor, and control entry and exit of system components", related_controls := [] })
]

/-- One `self.controls.update(...)` block of `_initialize_controls` (PL family). -/
def controls_block_PL : List (String × NISTControl) := [
  ("PL-1", { control_id := "PL-1", control_name := "Policy and Procedures", family := "Planning", family_id := "PL", priority := "P1", baseline := ["LOW", "MODERATE", "HIGH"], description := "Develop planning policy", related_controls := [] }),
  ("PL-2", { control_id := "PL-2", control_name := "System Security and Privacy Plans", family := "Planning", family_id := "PL", priority := "P1", baseline := ["LOW", "MODERATE", "HIGH"], description := "Develop security and privacy plans for the system", related_controls := [] }),
  ("PL-4", { control_id := "PL-4", control_name := "Rules of Behavior", family := "Planning", family_id := "PL", priority := "P2", baseline := ["LOW", "MODERATE", "HIGH"], description := "Establish rules describing responsibilities and expected behavior", related_controls := [] }),
  ("PL-8", { control_id := "PL-8", control_name := "Security and Privacy Architectures", family := "Planning", family_id := "PL", priority := "P1", baseline := ["MODERATE", "HIGH"], description := "Develop security and privacy architectures for the system", related_controls := [] }),
  ("PL-10", { control_id := "PL-10", control_name := "Baseline Selection", family := "Planning", family_id := "PL", priority := "P1", baseline := ["LOW", "MODERATE", "HIGH"], description := "Select control baseline for the system", related_controls := [] }),
  ("PL-11", { control_id := "PL-11", control_name := "Baseline Tailoring", family := "Planning", family_id := "PL", priority := "P1", baseline := ["LOW", "MODERATE", "HIGH"], description := "Tailor control baseline for the system", related_controls := [] })
]

/-- One `self.controls.update(...)` block of `_initialize_controls` (PM family). -/
def controls_block_PM : List (String × NISTControl) := [
  ("PM-1", { control_id := "PM-1", control_name := "Information Security Program Plan", family := "Program Management", family_id := "PM", priority := "P1", baseline := ["LOW", "MODERATE", "HIGH"], description := "Develop organization-wide information security program plan", related_controls := [] }),
  ("PM-2", { control_id := "PM-2", control_name := "Information Security Program Leadership Role", family := "Program Management", family_id := "PM", priority := "P1", baseline := ["LOW", "MODERATE", "HIGH"], description := "Appoint senior information security officer", related_controls := [] }),
  ("PM-3", { control_id := "PM-3", control_name := "Information Security and Privacy Resources", family := "Program Management", family_id := "PM", priority := "P1", baseline := ["LOW", "MODERATE", "HIGH"], description := "Include resources for security and privacy in capital planning", related_controls := [] }),
  ("PM-4", { control_id := "PM-4", control_name := "Plan of Action and Milestones Process", family := "Program Management", family_id := "PM", priority := "P1", baseline := ["LOW", "MODERATE", "HIGH"], description := "Implement process for plan of action and milestones", related_controls := [] }),
  ("PM-5", { control_id := "PM-5", control_name := "System Inventory", family := "Program Management", family_id := "PM", priority := "P1", baseline := ["LOW", "MODERATE", "HIGH"], description := "Develop and maintain inventory of organizational systems", related_controls := [] }),
  ("PM-6", { control_id := "PM-6", control_name := "Measures of Performance", family := "Program Management", family_id := "PM", priority := "P1", baseline := ["LOW", "MODERATE", "HIGH"], description := "Develop, monitor, and report on security and privacy measures", related_controls := [] }),
  ("PM-9", { control_id := "PM-9", control_name := "Risk Management Strategy", family := "Program Management", family_id := "PM", priority := "P1", baseline := ["LOW", "MODERATE", "HIGH"], description := "Develop comprehensive strategy to manage risk", related_controls := [] }),
  ("PM-10", { control_id := "PM-10", control_name := "Authorization Process", family := "Program Management", family_id := "PM", priority := "P1", baseline := ["LOW", "MODERATE", "HIGH"], description := "Manage authorization process for organizational systems", related_controls := [] }),
  ("PM-11", { control_id := "PM-11", control_name := "Mission and Business Process Definition", family := "Program Management", family_id := "PM", priority := "P1", baseline := ["LOW", "MODERATE", "HIGH"], description := "Define mission and business processes with security considerations", related_controls := [] }),
  ("PM-12", { control_id := "PM-12", control_name := "Insider Threat Program", family := "Program Management", family_id := "PM", priority := "P1", baseline := ["MODERATE", "HIGH"], description := "Implement insider threat program", related_controls := [] }),
  ("PM-14", { control_id := "PM-14", control_name := "Testing, Training, and Monitoring", family := "Program Management", family_id := "PM", priority := "P1", baseline := ["LOW", "MODERATE", "HIGH"], description := "Implement testing, training, and monitoring process", related_controls := [] }),
  ("PM-16", { control_id := "PM-16", control_name := "Threat Awareness Program", family := "Program Management", family_id := "PM", priority := "P1", baseline := ["LOW", "MODERATE", "HIGH"], description := "Implement threat awareness program", related_controls := [] })
]

/-- One `self.controls.update(...)` block of `_initialize_controls` (PS family). -/
def controls_block_PS : List (String × NISTControl) := [
  ("PS-1", { control_id := "PS-1", control_name := "Policy and Procedures", family := "Personnel Security", family_id := "PS", priority := "P1", baseline := ["LOW", "MODERATE", "HIGH"], description := "Develop personnel security policy", related_controls := [] }),
  ("PS-2", { control_id := "PS-2", control_name := "Position Risk Designation", family := "Personnel Security", family_id := "PS", priority := "P1", baseline := ["LOW", "MODERATE", "HIGH"], description := "Assign risk designation to all organizational positions", related_controls := [] }),
  ("PS-3", { control_id := "PS-3", control_name := "Personnel Screening", family := "Personnel Security", family_id := "PS", priority := "P1", baseline := ["LOW", "MODERATE", "HIGH"], description := "Screen individuals prior to authorizing access", related_controls := [] }),
  ("PS-4", { control_id := "PS-4", control_name := "Personnel Termination", family := "Personnel Security", family_id := "PS", priority := "P1", baseline := ["LOW", "MODERATE", "HIGH"], description := "Upon termination, terminate access and retrieve property", related_controls := [] }),
  ("PS-5", { control_id := "PS-5", control_name := "Personnel Transfer", family := "Personnel Security", family_id := "PS", priority := "P2", baseline := ["LOW", "MODERATE", "HIGH"], description := "Review access authorizations when individuals are transferred", related_controls := [] }),
  ("PS-6", { control_id := "PS-6", control_name := "Access Agreements", family := "Personnel Security", family_id := "PS", priority := "P3", baseline := ["LOW", "MODERATE", "HIGH"], description := "Develop and document access agreements for systems", related_controls := [] }),
  ("PS-7", { control_id := "PS-7", control_name := "External Personnel Security", family := "Personnel Security", family_id := "PS", priority := "P1", baseline := ["LOW", "MODERATE", "HIGH"], description := "Establish personnel security requirements for external providers", related_controls := [] }),
  ("PS-8", { control_id := "PS-8", control_name := "Personnel Sanctions", family := "Personnel Security", family_id := "PS", priority := "P3", baseline := ["LOW", "MODERATE", "HIGH"], description := "Employ formal sanctions process for personnel violations", related_controls := [] })
]

/-- One `self.controls.update(...)` block of `_initialize_controls` (PT family). -/
def controls_block_PT : List (String × NISTControl) := [
  ("PT-1", { control_id := "PT-1", control_name := "Policy and Procedures", family := "PII Processing and Transparency", family_id := "PT", priority := "P1", baseline := ["LOW", "MODERATE", "HIGH"], description := "Develop PII processing and transparency policy", related_controls := [] }),
  ("PT-2", { control_id := "PT-2", control_name := "Authority to Process PII", family := "PII Processing and Transparency", family_id := "PT", priority := "P1", baseline := ["LOW", "MODERATE", "HIGH"], description := "Determine and document legal authority for PII processing", related_controls := [] }),
  ("PT-3", { control_id := "PT-3", control_name := "PII Processing Purposes", family := "PII Processing and Transparency", family_id := "PT", priority := "P1", baseline := ["LOW", "MODERATE", "HIGH"], description := "Identify and document purpose for processing PII", related_controls := [] }),
  ("PT-4", { control_id := "PT-4", control_name := "Consent", family := "PII Processing and Transparency", family_id := "PT", priority := "P1", baseline := ["MODERATE", "HIGH"], description := "Implement mechanisms for individuals to authorize PII processing", related_controls := [] }),
  ("PT-5", { control_id := "PT-5", control_name := "Privacy Notice", family := "PII Processing and Transparency", family_id := "PT", priority := "P1", baseline := ["LOW", "MODERATE", "HIGH"], description := "Provide notice to individuals about PII processing", related_controls := [] }),
  ("PT-6", { control_id := "PT-6", control_name := "System of Records Notice", family := "PII Processing and Transparency", family_id := "PT", priority := "P1", baseline := ["LOW", "MODERATE", "HIGH"], description := "Publish System of Records Notice for Privacy Act requirements", related_controls := [] }),
  ("PT-7", { control_id := "PT-7", control_name := "Specific Categories of PII", family := "PII Processing and Transparency", family_id := "PT", priority := "P1", baseline := ["MODERATE", "HIGH"], description := "Apply controls for specific categories of PII", related_controls := [] })
]

/-- One `self.controls.update(...)` block of `_initialize_controls` (RA family). -/
def controls_block_RA : List (String × NISTControl) := [
  ("RA-1", { control_id := "RA-1", control_name := "Policy and Procedures", family := "Risk Assessment", family_id := "RA", priority := "P1", baseline := ["LOW", "MODERATE", "HIGH"], description := "Develop risk assessment policy", related_controls := [] }),
  ("RA-2", { control_id := "RA-2", control_name := "Security Categorization", family := "Risk Assessment", family_id := "RA", priority := "P1", baseline := ["LOW", "MODERATE", "HIGH"], description := "Categorize system and information per FIPS 199", related_controls := [] }),
  ("RA-3", { control_id := "RA-3", control_name := "Risk Assessment", family := "Risk Assessment", family_id := "RA", priority := "P1", baseline := ["LOW", "MODERATE", "HIGH"], description := "Conduct risk assessment including likelihood and magnitude of harm", related_controls := ["CA-3", "CA-6", "PM-9", "PM-28", "RA-2", "SA-9", "SC-38", "SI-12"] }),
  ("RA-5", { control_id := "RA-5", control_name := "Vulnerability Monitoring and Scanning", family := "Risk Assessment", family_id := "RA", priority := "P1", baseline := ["LOW", "MODERATE", "HIGH"], description := "Monitor and scan for vulnerabilities in the system and applications", related_controls := ["CA-2", "CA-7", "CA-8", "CM-4", "CM-6", "CM-8", "RA-3", "SA-11", "SA-15", "SC-38", "SI-2", "SI-3", "SI-4", "SI-7", "SR-6"] }),
  ("RA-7", { control_id := "RA-7", control_name := "Risk Response", family := "Risk Assessment", family_id := "RA", priority := "P1", baseline := ["LOW", "MODERATE", "HIGH"], description := "Respond to findings from assessments, monitoring, and audits", related_controls := [] }),
  ("RA-9", { control_id := "RA-9", control_name := "Criticality Analysis", family := "Risk Assessment", family_id := "RA", priority := "P1", baseline := ["HIGH"], description := "Identify critical system components and functions", related_controls := [] }),
  ("RA-10", { control_id := "RA-10", control_name := "Threat Hunting", family := "Risk Assessment", family_id := "RA", priority := "P2", baseline := ["HIGH"], description := "Establish threat hunting capability for indicators of compromise", related_controls := [] })
]

/-- One `self.controls.update(...)` block of `_initialize_controls` (SA family). -/
def controls_block_SA : List (String × NISTControl) := [
  ("SA-1", { control_id := "SA-1", control_name := "Policy and Procedures", family := "System and Services Acquisition", family_id := "SA", priority := "P1", baseline := ["LOW", "MODERATE", "HIGH"], description := "Develop system and services acquisition policy", related_controls := [] }),
  ("SA-2", { control_id := "SA-2", control_name := "Allocation of Resources", family := "System and Services Acquisition", family_id := "SA", priority := "P1", baseline := ["LOW", "MODERATE", "HIGH"], description := "Determine security requirements and allocate resources", related_controls := [] }),
  ("SA-3", { control_id := "SA-3", control_name := "System Development Life Cycle", family := "System and Services Acquisition", family_id := "SA", priority := "P1", baseline := ["LOW", "MODERATE", "HIGH"], description := "Manage system using SDLC incorporating security", related_controls := [] }),
  ("SA-4", { control_id := "SA-4", control_name := "Acquisition Process", family := "System and Services Acquisition", family_id := "SA", priority := "P1", baseline := ["LOW", "MODERATE", "HIGH"], description := "Include security requirements in acquisition contracts", related_controls := [] }),
  ("SA-5", { control_id := "SA-5", control_name := "System Documentation", family := "System and Services Acquisition", family_id := "SA", priority := "P2", baseline := ["LOW", "MODERATE", "HIGH"], description := "Obtain and maintain system documentation", related_controls := [] }),
  ("SA-8", { control_id := "SA-8", control_name := "Security and Privacy Engineering Principles", family := "System and Services Acquisition", family_id := "SA", priority := "P1", baseline := ["LOW", "MODERATE", "HIGH"], description := "Apply security and privacy engineering principles", related_controls := [] }),
  ("SA-9", { control_id := "SA-9", control_name := "External System Services", family := "System and Services Acquisition", family_id := "SA", priority := "P1", baseline := ["LOW", "MODERATE", "HIGH"], description := "Require external service providers comply with security requirements", related_controls := [] }),
  ("SA-10", { control_id := "SA-10", control_name := "Developer Configuration Management", family := "System and Services Acquisition", family_id := "SA", priority := "P1", baseline := ["MODERATE", "HIGH"], description := "Require developer configuration management during development", related_controls := [] }),
  ("SA-11", { control_id := "SA-11", control_name := "Developer Testing and Evaluation", family := "System and Services Acquisition", family_id := "SA", priority := "P1", baseline := ["MODERATE", "HIGH"], description := "Require developer testing and evaluation plan", related_controls := [] }),
  ("SA-15", { control_id := "SA-15", control_name := "Development Process, Standards, and Tools", family := "System and Services Acquisition", family_id := "SA", priority := "P2", baseline := ["MODERATE", "HIGH"], description := "Require documented development process addressing security", related_controls := [] }),
  ("SA-22", { control_id := "SA-22", control_name := "Unsupported System Components", family := "System and Services Acquisition", family_id := "SA", priority := "P1", baseline := ["MODERATE", "HIGH"], description := "Replace components when support is no longer available", related_controls := [] })
]

/-- One `self.controls.update(...)` block of `_initialize_controls` (SC family). -/
def controls_block_SC : List (String × NISTControl) := [
  ("SC-1", { control_id := "SC-1", control_name := "Policy and Procedures", family := "System and Communications Protection", family_id := "SC", priority := "P1", baseline := ["LOW", "MODERATE", "HIGH"], description := "Develop system and communications protection policy", related_controls := [] }),
  ("SC-2", { control_id := "SC-2", control_name := "Separation of System and User Functionality", family := "System and Communications Protection", family_id := "SC", priority := "P1", baseline := ["MODERATE", "HIGH"], description := "Separate user functionality from system management functionality", related_controls := [] }),
  ("SC-4", { control_id := "SC-4", control_name := "Information in Shared System Resources", family := "System and Communications Protection", family_id := "SC", priority := "P1", baseline := ["MODERATE", "HIGH"], description := "Prevent unauthorized transfer via shared system resources", related_controls := [] }),
  ("SC-5", { control_id := "SC-5", control_name := "Denial-of-Service Protection", family := "System and Communications Protection", family_id := "SC", priority := "P1", baseline := ["LOW", "MODERATE", "HIGH"], description := "Protect against or limit effects of denial-of-service attacks", related_controls := [] }),
  ("SC-7", { control_id := "SC-7", control_name := "Boundary Protection", family := "System and Communications Protection", family_id := "SC", priority := "P1", baseline := ["LOW", "MODERATE", "HIGH"], description := "Monitor and control communications at external and internal boundaries", related_controls := ["AC-4", "AC-17", "AC-18", "AC-19", "AC-20", "AU-13", "CA-3", "CM-6", "CM-7", "CP-7", "CP-8", "IR-4", "MA-4", "PE-4", "PL-8", "PM-12", "SA-8", "SA-17", "SC-5", "SC-26", "SC-32", "SC-35", "SC-43", "SI-3", "SI-4"] }),
  ("SC-8", { control_id := "SC-8", control_name := "Transmission Confidentiality and Integrity", family := "System and Communications Protection", family_id := "SC", priority := "P1", baseline := ["MODERATE", "HIGH"], description := "Protect confidentiality and integrity of transmitted information", related_controls := ["AC-17", "AC-18", "AU-10", "IA-3", "IA-5", "MA-4", "PE-4", "SA-4", "SA-8", "SC-7", "SC-12", "SC-13", "SC-16", "SC-20", "SC-23", "SC-28"] }),
  ("SC-10", { control_id := "SC-10", control_name := "Network Disconnect", family := "System and Communications Protection", family_id := "SC", priority := "P2", baseline := ["MODERATE", "HIGH"], description := "Terminate network connection at end of session or after inactivity period", related_controls := [] }),
  ("SC-12", { control_id := "SC-12", control_name := "Cryptographic Key Establishment and Management", family := "System and Communications Protection", family_id := "SC", priority := "P1", baseline := ["LOW", "MODERATE", "HIGH"], description := "Establish and manage cryptographic keys", related_controls := [] }),
  ("SC-13", { control_id := "SC-13", control_name := "Cryptographic Protection", family := "System and Communications Protection", family_id := "SC", priority := "P1", baseline := ["LOW", "MODERATE", "HIGH"], description := "Implement cryptography using FIPS-validated modules", related_controls := ["AC-2", "AC-3", "AC-7", "AC-17", "AC-18", "AC-19", "AU-9", "AU-10", "CM-11", "CP-9", "IA-3", "IA-5", "IA-7", "MA-4", "MP-2", "MP-4", "MP-5", "PE-3", "SA-4", "SA-8", "SA-9", "SC-8", "SC-12", "SC-23", "SC-28", "SC-43", "SI-3", "SI-7"] }),
  ("SC-15", { control_id := "SC-15", control_name := "Collaborative Computing Devices and Applications", family := "System and Communications Protection", family_id := "SC", priority := "P1", baseline := ["LOW", "MODERATE", "HIGH"], description := "Prohibit remote activation of collaborative computing devices", related_controls := [] }),
  ("SC-17", { control_id := "SC-17", control_name := "Public Key Infrastructure Certificates", family := "System and Communications Protection", family_id := "SC", priority := "P1", baseline := ["MODERATE", "HIGH"], description := "Issue public key certificates under organization policy or from approved provider", related_controls := [] }),
  ("SC-18", { control_id := "SC-18", control_name := "Mobile Code", family := "System and Communications Protection", family_id := "SC", priority := "P2", baseline := ["MODERATE", "HIGH"], description := "Define acceptable and unacceptable mobile code and technologies", related_controls := [] }),
  ("SC-20", { control_id := "SC-20", control_name := "Secure Name/Address Resolution Service (Authoritative Source)", family := "System and Communications Protection", family_id := "SC", priority := "P1", baseline := ["LOW", "MODERATE", "HIGH"], description := "Provide origin and integrity verification for authoritative DNS", related_controls := [] }),
  ("SC-21", { control_id := "SC-21", control_name := "Secure Name/Address Resolution Service (Recursive or Caching Resolver)", family := "System and Communications Protection", family_id := "SC", priority := "P1", baseline := ["LOW", "MODERATE", "HIGH"], description := "Request and perform data origin and integrity verification for DNS responses", related_controls := [] }),
  ("SC-22", { control_id := "SC-22", control_name := "Architecture and Provisioning for Name/Address Resolution Service", family := "System and Communications Protection", family_id := "SC", priority := "P1", baseline := ["LOW", "MODERATE", "HIGH"], description := "Ensure fault-tolerant and role-separated DNS systems", related_controls := [] }),
  ("SC-23", { control_id := "SC-23", control_name := "Session Authenticity", family := "System and Communications Protection", family_id := "SC", priority := "P1", baseline := ["MODERATE", "HIGH"], description := "Protect authenticity of communications sessions", related_controls := [] }),
  ("SC-28", { control_id := "SC-28", control_name := "Protection of Information at Rest", family := "System and Communications Protection", family_id := "SC", priority := "P1", baseline := ["MODERATE", "HIGH"], description := "Protect confidentiality and integrity of information at rest", related_controls := [] }),
  ("SC-39", { control_id := "SC-39", control_name := "Process Isolation", family := "System and Communications Protection", family_id := "SC", priority := "P1", baseline := ["LOW", "MODERATE", "HIGH"], description := "Maintain separate execution domain for each executing process", related_controls := [] })
]

/-- One `self.controls.update(...)` block of `_initialize_controls` (SI family). -/
def controls_block_SI : List (String × NISTControl) := [
  ("SI-1", { control_id := "SI-1", control_name := "Policy and Procedures", family := "System and Information Integrity", family_id := "SI", priority := "P1", baseline := ["LOW", "MODERATE", "HIGH"], description := "Develop system and information integrity policy", related_controls := [] }),
  ("SI-2", { control_id := "SI-2", control_name := "Flaw Remediation", family := "System and Information Integrity", family_id := "SI", priority := "P1", baseline := ["LOW", "MODERATE", "HIGH"], description := "Identify, report, and correct system flaws; test updates before installation", related_controls := ["CA-5", "CM-3", "CM-4", "CM-5", "CM-6", "CM-8", "IR-4", "MA-2", "RA-5", "RA-7", "SA-8", "SA-10", "SA-11", "SI-3", "SI-5", "SI-7", "SI-11"] }),
  ("SI-3", { control_id := "SI-3", control_name := "Malicious Code Protection", family := "System and Information Integrity", family_id := "SI", priority := "P1", baseline := ["LOW", "MODERATE", "HIGH"], description := "Implement malicious code protection at system entry and exit points", related_controls := ["AC-4", "AC-19", "CM-3", "CM-8", "IR-4", "MA-3", "MA-4", "PL-9", "RA-5", "SC-7", "SC-23", "SC-26", "SC-28", "SC-44", "SI-2", "SI-4", "SI-7", "SI-8", "SI-15"] }),
  ("SI-4", { control_id := "SI-4", control_name := "System Monitoring", family := "System and Information Integrity", family_id := "SI", priority := "P1", baseline := ["LOW", "MODERATE", "HIGH"], description := "Monitor system to detect attacks, indicators of potential attacks, and unauthorized connections", related_controls := ["AC-2", "AC-3", "AC-4", "AC-8", "AC-17", "AU-2", "AU-6", "AU-7", "AU-9", "AU-12", "AU-13", "AU-14", "CA-7", "CM-3", "CM-8", "IA-10", "IR-4", "PE-3", "PE-6", "PM-12", "RA-5", "RA-10", "SC-5", "SC-7", "SC-18", "SC-26", "SC-35", "SC-36", "SC-37", "SI-3", "SI-7", "SR-10"] }),
  ("SI-5", { control_id := "SI-5", control_name := "Security Alerts, Advisories, and Directives", family := "System and Information Integrity", family_id := "SI", priority := "P1", baseline := ["LOW", "MODERATE", "HIGH"], description := "Receive and generate security alerts, advisories, and directives", related_controls := [] }),
  ("SI-6", { control_id := "SI-6", control_name := "Security and Privacy Function Verification", family := "System and Information Integrity", family_id := "SI", priority := "P1", baseline := ["HIGH"], description := "Verify correct operation of security and privacy functions", related_controls := [] }),
  ("SI-7", { control_id := "SI-7", control_name := "Software, Firmware, and Information Integrity", family := "System and Information Integrity", family_id := "SI", priority := "P1", baseline := ["MODERATE", "HIGH"], description := "Employ integrity verification tools to detect unauthorized changes", related_controls := [] }),
  ("SI-8", { control_id := "SI-8", control_name := "Spam Protection", family := "System and Information Integrity", family_id := "SI", priority := "P2", baseline := ["MODERATE", "HIGH"], description := "Employ spam protection mechanisms at system entry and exit points", related_controls := [] }),
  ("SI-10", { control_id := "SI-10", control_name := "Information Input Validation", family := "System and Information Integrity", family_id := "SI", priority := "P1", baseline := ["MODERATE", "HIGH"], description := "Check validity of information inputs", related_controls := ["AC-3", "SI-11"] }),
  ("SI-11", { control_id := "SI-11", control_name := "Error Handling", family := "System and Information Integrity", family_id := "SI", priority := "P2", baseline := ["MODERATE", "HIGH"], description := "Generate error messages without revealing sensitive information", related_controls := [] }),
  ("SI-12", { control_id := "SI-12", control_name := "Information Management and Retention", family := "System and Information Integrity", family_id := "SI", priority := "P2", baseline := ["LOW", "MODERATE", "HIGH"], description := "Manage and retain information per applicable requirements", related_controls := [] }),
  ("SI-16", { control_id := "SI-16", control_name := "Memory Protection", family := "System and Information Integrity", family_id := "SI", priority := "P1", baseline := ["MODERATE", "HIGH"], description := "Implement safeguards to protect memory from unauthorized code execution", related_controls := [] })
]

/-- One `self.controls.update(...)` block of `_initialize_controls` (SR family). -/
def controls_block_SR : List (String × NISTControl) := [
  ("SR-1", { control_id := "SR-1", control_name := "Policy and Procedures", family := "Supply Chain Risk Management", family_id := "SR", priority := "P1", baseline := ["LOW", "MODERATE", "HIGH"], description := "Develop supply chain risk management policy", related_controls := [] }),
  ("SR-2", { control_id := "SR-2", control_name := "Supply Chain Risk Management Plan", family := "Supply Chain Risk Management", family_id := "SR", priority := "P1", baseline := ["MODERATE", "HIGH"], description := "Develop plan for managing supply chain risks", related_controls := [] }),
  ("SR-3", { control_id := "SR-3", control_name := "Supply Chain Controls and Processes", family := "Supply Chain Risk Management", family_id := "SR", priority := "P1", baseline := ["MODERATE", "HIGH"], description := "Establish processes to identify and address supply chain weaknesses", related_controls := [] }),
  ("SR-4", { control_id := "SR-4", control_name := "Provenance", family := "Supply Chain Risk Management", family_id := "SR", priority := "P1", baseline := ["HIGH"], description := "Document, monitor, and maintain provenance of systems and components", related_controls := [] }),
  ("SR-5", { control_id := "SR-5", control_name := "Acquisition Strategies, Tools, and Methods", family := "Supply Chain Risk Management", family_id := "SR", priority := "P1", baseline := ["MODERATE", "HIGH"], description := "Employ acquisition strategies to protect against supply chain risks", related_controls := [] }),
  ("SR-6", { control_id := "SR-6", control_name := "Supplier Assessments and Reviews", family := "Supply Chain Risk Management", family_id := "SR", priority := "P1", baseline := ["MODERATE", "HIGH"], description := "Assess and review supply chain-related risks from suppliers", related_controls := [] }),
  ("SR-8", { control_id := "SR-8", control_name := "Notification Agreements", family := "Supply Chain Risk Management", family_id := "SR", priority := "P2", baseline := ["MODERATE", "HIGH"], description := "Establish notification agreements for supply chain compromises", related_controls := [] }),
  ("SR-10", { control_id := "SR-10", control_name := "Inspection of Systems or Components", family := "Supply Chain Risk Management", family_id := "SR", priority := "P1", baseline := ["HIGH"], description := "Inspect systems or components to detect tampering", related_controls := [] }),
  ("SR-11", { control_id := "SR-11", control_name := "Component Authenticity", family := "Supply Chain Risk Management", family_id := "SR", priority := "P1", baseline := ["MODERATE", "HIGH"], description := "Develop anti-counterfeit policy and procedures", related_controls := [] }),
  ("SR-12", { control_id := "SR-12", control_name := "Component Disposal", family := "Supply Chain Risk Management", family_id := "SR", priority := "P1", baseline := ["MODERATE", "HIGH"], description := "Dispose of components per organizational techniques", related_controls := [] })
]

/-- Embeds `NISTMapper.controls`: the catalog dict built by the successive
update blocks of `_initialize_controls`, in insertion order (all keys are
distinct, so concatenation of the blocks models the dict). -/
def controls : List (String × NISTControl) :=
  controls_block_AC ++ controls_block_AT ++ controls_block_AU ++ controls_block_CA ++ controls_block_CM ++ controls_block_CP ++ controls_block_IA ++ controls_block_IR ++ controls_block_MA ++ controls_block_MP ++ controls_block_PE ++ controls_block_PL ++ controls_block_PM ++ controls_block_PS ++ controls_block_PT ++ controls_block_RA ++ controls_block_SA ++ controls_block_SC ++ controls_block_SI ++ controls_block_SR


/-- Embeds `NISTMapper.cve_to_controls` (CVE identifier to NIST control ids),
in Python dict insertion order. -/
def cve_to_controls : List (String × List String) := [
  ("CVE-2014-0160", ["SC-8", "SC-12", "SC-13", "RA-5"]),
  ("CVE-2014-3566", ["SC-8", "SC-13"]),
  ("CVE-2015-0204", ["SC-8", "SC-13"]),
  ("CVE-2015-4000", ["SC-8", "SC-13"]),
  ("CVE-2016-0800", ["SC-8", "SC-13"]),
  ("CVE-2016-2183", ["SC-8", "SC-13"]),
  ("CVE-2020-1472", ["IA-2", "IA-5", "SC-8", "SC-23"]),
  ("CVE-2017-0144", ["SI-2", "CM-7", "SC-7", "RA-5"]),
  ("CVE-2017-0145", ["SI-2", "CM-7", "SC-7"]),
  ("CVE-2019-0708", ["SI-2", "AC-17", "CM-7"]),
  ("CVE-2021-44228", ["SI-2", "SI-10", "CM-7", "RA-5"]),
  ("CVE-2021-45046", ["SI-2", "SI-10", "CM-7"]),
  ("CVE-2021-45105", ["SI-2", "SI-10", "CM-7"]),
  ("CVE-2022-22965", ["SI-2", "SI-10", "CM-6"]),
  ("CVE-2022-26134", ["SI-2", "SI-10", "AC-6"]),
  ("CVE-2023-44487", ["SC-5", "SI-2"]),
  ("CVE-2014-6271", ["SI-2", "SI-10", "AC-6"]),
  ("CVE-2014-7169", ["SI-2", "SI-10", "AC-6"]),
  ("CVE-2017-5638", ["SI-2", "SI-10", "AC-3"]),
  ("CVE-2021-41773", ["SI-2", "AC-3", "CM-6"]),
  ("CVE-2021-42013", ["SI-2", "AC-3", "CM-6"]),
  ("CVE-2018-11776", ["SI-2", "AC-3", "SI-10"]),
  ("CVE-2019-11510", ["SI-2", "AC-17", "IA-5"]),
  ("CVE-2020-0796", ["SI-2", "SC-7", "CM-7"]),
  ("CVE-2020-5902", ["SI-2", "AC-3", "CM-6"]),
  ("CVE-2021-22986", ["SI-2", "AC-3", "CM-6"]),
  ("CVE-2021-1675", ["SI-2", "AC-6", "CM-6"]),
  ("CVE-2021-34527", ["SI-2", "AC-6", "CM-6"]),
  ("CVE-2021-4034", ["SI-2", "AC-6"]),
  ("CVE-2022-0847", ["SI-2", "AC-6"]),
  ("CVE-2019-11581", ["SI-2", "SI-10", "AC-3"]),
  ("CVE-2019-18935", ["SI-2", "AC-3", "AU-9"]),
  ("CVE-2020-0688", ["SI-2", "IA-5", "CM-6"]),
  ("CVE-2021-26855", ["SI-2", "AC-17", "CM-6"]),
  ("CVE-2021-27065", ["SI-2", "AC-6", "CM-6"]),
  ("CVE-2021-34473", ["SI-2", "AC-17", "CM-6"]),
  ("CVE-2023-23397", ["SI-2", "IA-5", "SC-8"]),
  ("CVE-2012-2122", ["IA-5", "IA-2", "AU-2"]),
  ("CVE-2020-1938", ["SI-2", "SC-7", "CM-7"]),
  ("CVE-2020-14882", ["SI-2", "AC-3", "CM-6"]),
  ("CVE-2020-14883", ["SI-2", "AC-3", "CM-6"]),
  ("CVE-2020-25213", ["SI-2", "CM-6", "AC-3"]),
  ("CVE-2021-22205", ["SI-2", "SI-10", "CM-6"])
]

/-- Embeds `NISTMapper.category_to_controls` (vulnerability category to NIST
control ids), in Python dict insertion order. -/
def category_to_controls : List (String × List String) := [
  ("Missing Patches", ["SI-2", "CM-3", "CM-6", "RA-5"]),
  ("Outdated Software", ["SI-2", "SA-22", "CM-8"]),
  ("End of Life Software", ["SA-22", "SI-2", "PM-5"]),
  ("Unsupported Software", ["SA-22", "SI-2", "CM-8"]),
  ("Weak Encryption", ["SC-8", "SC-12", "SC-13", "SC-28"]),
  ("Weak SSL/TLS", ["SC-8", "SC-13", "CM-6"]),
  ("Expired Certificates", ["SC-17", "SC-12", "IA-5"]),
  ("Self-Signed Certificates", ["SC-17", "SC-12"]),
  ("Missing Encryption", ["SC-8", "SC-28", "MP-5"]),
  ("Weak Authentication", ["IA-2", "IA-5", "IA-11"]),
  ("Default Credentials", ["IA-5", "CM-6", "CM-2"]),
  ("Weak Passwords", ["IA-5", "AC-7"]),
  ("Missing MFA", ["IA-2", "AC-17"]),
  ("Password Policy", ["IA-5", "AC-7", "CM-6"]),
  ("Session Management", ["SC-23", "AC-12", "IA-11"]),
  ("Access Control", ["AC-2", "AC-3", "AC-6"]),
  ("Excessive Privileges", ["AC-6", "AC-2", "CM-5"]),
  ("Least Privilege", ["AC-6", "CM-5"]),
  ("Account Management", ["AC-2", "PS-4", "PS-5"]),
  ("Orphaned Accounts", ["AC-2", "PS-4"]),
  ("Configuration Issues", ["CM-6", "CM-2", "CM-7"]),
  ("Misconfiguration", ["CM-6", "CM-2"]),
  ("Insecure Defaults", ["CM-6", "CM-2", "SA-4"]),
  ("Unnecessary Services", ["CM-7", "CM-2"]),
  ("Open Ports", ["CM-7", "SC-7"]),
  ("Unnecessary Features", ["CM-7"]),
  ("Network Security", ["SC-7", "AC-4", "SI-4"]),
  ("Remote Access", ["AC-17", "IA-2", "SC-8"]),
  ("Wireless Security", ["AC-18", "SC-8"]),
  ("Boundary Protection", ["SC-7", "AC-4"]),
  ("Network Segmentation", ["SC-7", "AC-4"]),
  ("Input Validation", ["SI-10", "SC-18"]),
  ("SQL Injection", ["SI-10", "SA-11"]),
  ("Cross-Site Scripting", ["SI-10", "SA-11"]),
  ("Command Injection", ["SI-10", "AC-6"]),
  ("Path Traversal", ["SI-10", "AC-3"]),
  ("Logging Issues", ["AU-2", "AU-3", "AU-12"]),
  ("Insufficient Logging", ["AU-2", "AU-12"]),
  ("Missing Audit", ["AU-2", "AU-6"]),
  ("Log Protection", ["AU-9", "AU-11"]),
  ("Malware Protection", ["SI-3", "SI-4"]),
  ("Antivirus", ["SI-3", "CM-6"]),
  ("Missing EDR", ["SI-3", "SI-4"]),
  ("Data Protection", ["SC-28", "MP-2", "MP-4"]),
  ("Data at Rest", ["SC-28", "MP-4"]),
  ("Media Protection", ["MP-2", "MP-4", "MP-6"]),
  ("Data Leakage", ["AC-4", "SC-7", "SI-4"]),
  ("Incident Response", ["IR-4", "IR-5", "IR-6"]),
  ("Security Monitoring", ["SI-4", "AU-6", "IR-5"]),
  ("Vulnerability Scanning", ["RA-5", "CA-2", "CA-7"]),
  ("Vulnerability Management", ["RA-5", "SI-2", "CA-5"]),
  ("Risk Assessment", ["RA-3", "RA-5"]),
  ("Backup Issues", ["CP-9", "CP-10"]),
  ("Disaster Recovery", ["CP-2", "CP-7", "CP-10"]),
  ("Business Continuity", ["CP-2", "CP-4"]),
  ("Physical Security", ["PE-2", "PE-3", "PE-6"]),
  ("Personnel Security", ["PS-2", "PS-3", "PS-4"]),
  ("Security Awareness", ["AT-2", "AT-3"]),
  ("Supply Chain", ["SR-2", "SR-3", "SR-6"]),
  ("Third Party Risk", ["SA-9", "SR-6", "SA-4"]),
  ("Vendor Management", ["SA-9", "SR-6"]),
  ("PII Protection", ["PT-2", "PT-3", "PT-5"]),
  ("Privacy", ["PT-1", "PT-2", "PT-4"]),
  ("General Security", ["SI-2", "CM-6"]),
  ("Unknown", ["SI-2"])
]

/-- Embeds the ordered `patterns` dict of `NISTMapper.categorize_vulnerability`:
category name paired with its keyword list, in Python dict insertion order
(first match wins). -/
def patterns : List (String × List String) := [
  ("Missing Patches", ["patch", "update", "security update", "kb", "hotfix", "cumulative update"]),
  ("Weak SSL/TLS", ["ssl", "tls", "sslv2", "sslv3", "tlsv1.0", "tlsv1.1", "weak cipher", "cipher suite"]),
  ("Weak Encryption", ["weak encryption", "des", "rc4", "md5", "sha1", "3des", "sweet32"]),
  ("Default Credentials", ["default password", "default credential", "default account", "factory default"]),
  ("Weak Passwords", ["weak password", "password policy", "password complexity", "blank password"]),
  ("Missing MFA", ["multi-factor", "mfa", "two-factor", "2fa"]),
  ("Outdated Software", ["outdated", "unsupported", "end of life", "eol", "obsolete", "deprecated"]),
  ("Unnecessary Services", ["service detection", "unnecessary service", "unused service", "unneeded"]),
  ("Open Ports", ["open port", "exposed port", "listening port"]),
  ("Configuration Issues", ["configuration", "misconfiguration", "misconfigured", "hardening"]),
  ("SQL Injection", ["sql injection", "sqli", "blind sql"]),
  ("Cross-Site Scripting", ["cross-site scripting", "xss", "script injection"]),
  ("Command Injection", ["command injection", "os command", "shell injection", "code injection"]),
  ("Path Traversal", ["path traversal", "directory traversal", "../ ", "file inclusion"]),
  ("Remote Access", ["remote access", "rdp", "ssh", "vnc", "telnet"]),
  ("Wireless Security", ["wireless", "wifi", "wpa", "wep", "802.11"]),
  ("Logging Issues", ["logging", "audit", "event log"]),
  ("Malware Protection", ["antivirus", "anti-malware", "malware", "virus"]),
  ("Backup Issues", ["backup", "recovery", "restore"]),
  ("Access Control", ["access control", "permission", "privilege", "authorization"]),
  ("Session Management", ["session", "cookie", "timeout"]),
  ("Input Validation", ["input validation", "validation", "sanitization"]),
  ("Expired Certificates", ["expired certificate", "certificate expir"]),
  ("Self-Signed Certificates", ["self-signed", "untrusted certificate"]),
  ("Vulnerability Scanning", ["vulnerability scan", "vulnerability assessment"])
]

/-! ## Mapper operations (`NISTMapper` methods) -/

/-- Embeds `NISTMapper.get_controls_for_cve`. -/
def get_controls_for_cve (cve : String) : List String :=
  dictGetD cve_to_controls cve

/-- Embeds `NISTMapper.get_controls_for_category`. -/
def get_controls_for_category (category : String) : List String :=
  dictGetD category_to_controls category

/-- Models `control_id.split("(")[0] if "(" in control_id else control_id`
from `NISTMapper.get_control_details`: element 0 of a Python `split` is the
prefix of the string before the first separator occurrence. -/
def base_id_of (control_id : String) : String :=
  if containsSub control_id.data ['('] then
    String.mk (control_id.data.takeWhile (fun c => c != '('))
  else control_id

/-- Embeds `NISTMapper.get_control_details`: strip an enhancement suffix and
look the base identifier up with `dict.get` (absent key gives `none`). -/
def get_control_details (control_id : String) : Option NISTControl :=
  dictGet controls (base_id_of control_id)

/-- Embeds `NISTMapper.categorize_vulnerability`: lower-case both inputs, scan
the ordered `patterns` table and return the first category one of whose
keywords occurs in either lowered string, else "General Security". -/
def categorize_vulnerability (plugin_name description : String) : String :=
  let plugin_lower := pyLower plugin_name
  let desc_lower := pyLower description
  match patterns.find? (fun p =>
      p.2.any (fun keyword => strIn keyword plugin_lower || strIn keyword desc_lower)) with
  | some p => p.1
  | none => "General Security"

/-- Models Python `sorted(list(s))` for a set `s` collected as a list of
elements: the sorted duplicate-free list with the same members. -/
def pySortedSet (l : List String) : List String :=
  List.insertionSort (fun a b => a ≤ b) l.dedup

/-- Embeds `NISTMapper.map_vulnerability_to_controls`. The Python method
accumulates a `set`: union of the `cve_to_controls` rows of every uppercased
and stripped identifier that is a key, plus the `category_to_controls` row of
the categorized finding, with "SI-2" added when that union is empty; it
returns `sorted(list(controls))`. The set is modelled by collecting the same
elements in a list and sorting it with duplicates removed at the end. -/
def map_vulnerability_to_controls (plugin_name description : String)
    (cves : List String) : List String :=
  let from_cves := (cves.map (fun cve => dictGetD cve_to_controls (pyStrip (pyUpper cve)))).flatten
  let category := categorize_vulnerability plugin_name description
  let with_category := from_cves ++ dictGetD category_to_controls category
  let result := if with_category.isEmpty then ["SI-2"] else with_category
  pySortedSet result

/-! ## Data model of `nessus_parser.py` -/

/-- Embeds the `HostProperties` dataclass. All fields are filled from
`tag.text or` the empty string, so they are plain strings. -/
structure HostProperties where
  hostname : String
  ip : String
  os : String
  mac_address : String
  netbios_name : String
  fqdn : String
  scan_start : String
  scan_end : String
deriving DecidableEq

/-- Embeds the `Vulnerability` dataclass. The fields read by `_get_text` are
`Option String` because `_get_text` returns `elem.text`, which is Python
`None` for a present but empty sub-element; attribute-based fields are plain
strings (`element.get` with a string default). -/
structure Vulnerability where
  plugin_id : String
  plugin_name : String
  plugin_family : String
  severity : Int
  description : Option String
  solution : Option String
  see_also : Option String
  cve : Option String
  cvss_base_score : Option String
  cvss_vector : Option String
  port : String
  protocol : String
  service_name : String
  plugin_output : Option String
deriving DecidableEq

/-- Embeds the `ReportHost` dataclass. -/
structure ReportHost where
  name : String
  properties : HostProperties
  vulnerabilities : List Vulnerability
deriving DecidableEq

/-- Embeds the `NessusReport` dataclass. `scan_name` comes from
`scan_info.get` of the name key with default "Unknown Scan", whose value can be the text of the
TARGET preference `value` element and hence Python `None`. -/
structure NessusReport where
  policy_name : String
  scan_name : Option String
  scan_start : String
  scan_end : String
  hosts : List ReportHost
  total_hosts : Nat
  total_vulnerabilities : Nat
deriving DecidableEq

/-! ## Input document model

`xml.etree.ElementTree` trees are modelled only as deeply as the parser walks
them: a `ReportItem` is its attribute map plus its child elements (tag name
and optional text, `none` modelling an ElementTree `.text` of Python `None`);
a `ReportHost` element is its attribute map, its optional `HostProperties`
block (the list of `<tag>` children) and its `ReportItem` elements; the
document records the `Policy/policyName` text, the TARGET preference, and the
`ReportHost` elements in document order. -/

/-- A child element as seen by `element.find(tag_name)`: its tag and its
`.text` (which ElementTree reports as Python `None` when the element has no
text content). -/
structure XmlTag where
  name : String
  text : Option String
deriving DecidableEq

/-- A `ReportItem` element. -/
structure ReportItemElem where
  attrs : List (String × String)
  children : List XmlTag
deriving DecidableEq

/-- A `ReportHost` element: `host_properties` is `none` when the host has no
`HostProperties` child at all. -/
structure HostElem where
  attrs : List (String × String)
  host_properties : Option (List XmlTag)
  report_items : List ReportItemElem
deriving DecidableEq

/-- A parsed document tree. `policy_elem` is `none` when `Policy/policyName`
is absent, otherwise carries the text of that element; `target_pref` is `none`
when the TARGET preference is absent, otherwise `some v` where `v` is `none`
when its `value` child is missing and otherwise carries the text of that child. -/
structure NessusDoc where
  policy_elem : Option (Option String)
  target_pref : Option (Option (Option String))
  report_hosts : List HostElem
deriving DecidableEq

/-! ## Parser operations (`NessusParser` methods) -/

/-- Models `element.get(key, default)` on an attribute map: attribute values
are always strings in ElementTree. -/
def attrGetD (attrs : List (String × String)) (key d : String) : String :=
  (((attrs.find? (fun p => p.1 == key)).map (fun p => p.2)).getD d)

/-- Models Python `t or default` for an optional string `t`: Python `None`
and the empty string are both falsy and give the default. -/
def pyOrStr (t : Option String) (d : String) : String :=
  match t with
  | some s => if s == "" then d else s
  | none => d

/-- Embeds `NessusParser._get_text`: `elem.text` when the element is found, else the empty string.
A missing sub-element gives the empty string; a found sub-element gives its `.text`
unchanged, which is Python `None` (`Option.none`) when the element is empty. -/
def get_text (element : ReportItemElem) (tag_name : String) : Option String :=
  match element.children.find? (fun e => e.name == tag_name) with
  | some e => e.text
  | none => some ""

/-- Models Python `int(s)` as used on the `severity` attribute: strip
surrounding whitespace, allow one optional sign, then require a nonempty
string of decimal digits; any other input raises `ValueError`, modelled as
`none`. -/
def pyInt (s : String) : Option Int :=
  let t := (pyStrip s).data
  let signed : Int × List Char :=
    match t with
    | '-' :: rest => (-1, rest)
    | '+' :: rest => (1, rest)
    | _ => (1, t)
  if signed.2.isEmpty = false && signed.2.all Char.isDigit then
    some (signed.1 * ((signed.2.foldl (fun n c => n * 10 + (c.toNat - 48)) 0 : Nat) : Int))
  else none

/-- Embeds the body of the `ReportItem` loop of
`_parse_host_vulnerabilities`: every field of one `Vulnerability`. The only
fallible step is `int` of the severity attribute with default "0", whose `ValueError` is
modelled as `Except.error`. -/
def parse_report_item (item : ReportItemElem) : Except String Vulnerability :=
  match pyInt (attrGetD item.attrs "severity" "0") with
  | none => Except.error "invalid literal for int"
  | some sev =>
    Except.ok {
      plugin_id := attrGetD item.attrs "pluginID" "",
      plugin_name := attrGetD item.attrs "pluginName" "",
      plugin_family := attrGetD item.attrs "pluginFamily" "",
      severity := sev,
      description := get_text item "description",
      solution := get_text item "solution",
      see_also := get_text item "see_also",
      cve := get_text item "cve",
      cvss_base_score := get_text item "cvss_base_score",
      cvss_vector := get_text item "cvss_vector",
      port := attrGetD item.attrs "port" "",
      protocol := attrGetD item.attrs "protocol" "",
      service_name := attrGetD item.attrs "svc_name" "",
      plugin_output := get_text item "plugin_output" }

/-- Embeds the loop of `_parse_host_vulnerabilities`: items in document
order; the first raising item aborts with its error. -/
def parse_items : List ReportItemElem → Except String (List Vulnerability)
  | [] => Except.ok []
  | item :: rest =>
    match parse_report_item item with
    | Except.error e => Except.error e
    | Except.ok v =>
      match parse_items rest with
      | Except.error e => Except.error e
      | Except.ok vs => Except.ok (v :: vs)

/-- Embeds `NessusParser._parse_host_vulnerabilities`. -/
def parse_host_vulnerabilities (host : HostElem) : Except String (List Vulnerability) :=
  parse_items host.report_items

/-- Embeds the tag-dispatch body of the `_parse_host_properties` loop: each
`<tag>` is matched on its `name` attribute and overwrites the corresponding
field with `tag.text or` the empty string; unknown tag names are ignored. -/
def apply_tag (props : HostProperties) (tag : XmlTag) : HostProperties :=
  let value := pyOrStr tag.text ""
  if tag.name == "host-ip" then { props with ip := value }
  else if tag.name == "hostname" then { props with hostname := value }
  else if tag.name == "operating-system" then { props with os := value }
  else if tag.name == "mac-address" then { props with mac_address := value }
  else if tag.name == "netbios-name" then { props with netbios_name := value }
  else if tag.name == "fqdn" then { props with fqdn := value }
  else if tag.name == "HOST_START" then { props with scan_start := value }
  else if tag.name == "HOST_END" then { props with scan_end := value }
  else props

/-- Embeds `NessusParser._parse_host_properties`: `ip` starts from the `name` attribute of the host
element and each `<tag>` of the `HostProperties` block is
folded over the record in document order. -/
def parse_host_properties (host : HostElem) : HostProperties :=
  let host_ip := attrGetD host.attrs "name" ""
  let props : HostProperties :=
    { hostname := "", ip := host_ip, os := "", mac_address := "",
      netbios_name := "", fqdn := "", scan_start := "", scan_end := "" }
  match host.host_properties with
  | some tags => tags.foldl apply_tag props
  | none => props

/-- Embeds the loop of `NessusParser._parse_hosts` over `ReportHost`
elements in document order. -/
def parse_hosts_list : List HostElem → Except String (List ReportHost)
  | [] => Except.ok []
  | host :: rest =>
    match parse_host_vulnerabilities host with
    | Except.error e => Except.error e
    | Except.ok vulns =>
      match parse_hosts_list rest with
      | Except.error e => Except.error e
      | Except.ok hs =>
        Except.ok ({ name := attrGetD host.attrs "name" "Unknown",
                     properties := parse_host_properties host,
                     vulnerabilities := vulns } :: hs)

/-- Embeds `NessusParser._extract_policy_name`: the `Policy/policyName` text
with the default "Unknown Policy" when the text is falsy or the element is missing. -/
def extract_policy_name (doc : NessusDoc) : String :=
  match doc.policy_elem with
  | some t => pyOrStr t "Unknown Policy"
  | none => "Unknown Policy"

/-- Embeds `_extract_scan_info` combined with the `scan_info.get` call in
`parse`: the `info` dict gains a `name` key only when the TARGET preference
exists; the value under that key is the text of the `value` child (possibly Python
`None`) or the string "Unknown" when that child is missing; `get` falls back
to "Unknown Scan". -/
def scan_name_of (doc : NessusDoc) : Option String :=
  match doc.target_pref with
  | some value_elem =>
    match value_elem with
    | some t => t
    | none => some "Unknown"
  | none => some "Unknown Scan"

/-- Embeds `NessusParser.parse`: parse all hosts, then assemble the report
with `total_vulnerabilities = sum(len(host.vulnerabilities) for host in
hosts)` and `total_hosts = len(hosts)`. Any exception raised while parsing
is re-raised as a `ValueError` prefixed with a fixed message, modelled by
the error-message prefix. `scan_start`/`scan_end` come from
`scan_info.get` of the start and end keys, and `_extract_scan_info` never sets those
keys, so they are always the empty string. -/
def parse (doc : NessusDoc) : Except String NessusReport :=
  match parse_hosts_list doc.report_hosts with
  | Except.error e => Except.error ("Error parsing Nessus file: " ++ e)
  | Except.ok hosts =>
    Except.ok {
      policy_name := extract_policy_name doc,
      scan_name := scan_name_of doc,
      scan_start := "",
      scan_end := "",
      hosts := hosts,
      total_hosts := hosts.length,
      total_vulnerabilities := (hosts.map (fun h => h.vulnerabilities.length)).sum }

/-! ## Helper lemmas -/

/-- `categorize_vulnerability` with its local `let`s unfolded. -/
theorem categorize_vulnerability_eq (plugin_name description : String) :
    categorize_vulnerability plugin_name description =
      match patterns.find? (fun p =>
          p.2.any (fun keyword =>
            strIn keyword (pyLower plugin_name) || strIn keyword (pyLower description))) with
      | some p => p.1
      | none => "General Security" := rfl

/-- `map_vulnerability_to_controls` with its local `let`s unfolded. -/
theorem map_vulnerability_to_controls_eq (plugin_name description : String)
    (cves : List String) :
    map_vulnerability_to_controls plugin_name description cves =
      pySortedSet
        (if ((cves.map (fun cve => dictGetD cve_to_controls (pyStrip (pyUpper cve)))).flatten ++
              dictGetD category_to_controls (categorize_vulnerability plugin_name description)).isEmpty
         then ["SI-2"]
         else (cves.map (fun cve => dictGetD cve_to_controls (pyStrip (pyUpper cve)))).flatten ++
              dictGetD category_to_controls (categorize_vulnerability plugin_name description)) := rfl

theorem mem_pySortedSet {a : String} {l : List String} : a ∈ pySortedSet l ↔ a ∈ l := by
  unfold pySortedSet
  rw [(List.perm_insertionSort (fun a b => a ≤ b) l.dedup).mem_iff, List.mem_dedup]

theorem sorted_pySortedSet (l : List String) : List.Sorted (· ≤ ·) (pySortedSet l) :=
  List.sorted_insertionSort (fun a b => a ≤ b) l.dedup

theorem nodup_pySortedSet (l : List String) : (pySortedSet l).Nodup :=
  ((List.perm_insertionSort (fun a b => a ≤ b) l.dedup).nodup_iff).mpr (List.nodup_dedup l)

theorem pySortedSet_ne_nil {l : List String} (h : l ≠ []) : pySortedSet l ≠ [] := by
  intro hcontra
  have hperm := List.perm_insertionSort (fun a b => a ≤ b) l.dedup
  rw [pySortedSet] at hcontra
  rw [hcontra] at hperm
  exact h ((List.dedup_eq_nil _).mp hperm.symm.eq_nil)

theorem append_ne_nil_right {l r : List String} (h : r ≠ []) : l ++ r ≠ [] := by
  intro hc
  exact h (List.append_eq_nil.mp hc).2

/-- Whatever `categorize_vulnerability` returns is the default category or a
key of the `patterns` table. -/
theorem categorize_mem (plugin_name description : String) :
    categorize_vulnerability plugin_name description ∈
      "General Security" :: patterns.map Prod.fst := by
  rw [categorize_vulnerability_eq]
  cases h : patterns.find? (fun p =>
      p.2.any (fun keyword =>
        strIn keyword (pyLower plugin_name) || strIn keyword (pyLower description))) with
  | none => exact List.mem_cons_self _ _
  | some p =>
    exact List.mem_cons_of_mem _
      (List.mem_map_of_mem Prod.fst (List.mem_of_find?_eq_some h))

/-- Every category `categorize_vulnerability` can return is a key of
`category_to_controls` with a nonempty control list. -/
theorem category_row_ne_nil :
    ∀ c ∈ "General Security" :: patterns.map Prod.fst,
      dictGetD category_to_controls c ≠ [] := by decide

theorem category_controls_ne_nil (plugin_name description : String) :
    dictGetD category_to_controls (categorize_vulnerability plugin_name description) ≠ [] :=
  category_row_ne_nil _ (categorize_mem plugin_name description)

theorem isEmpty_false_of_ne_nil {l : List String} (h : l ≠ []) : l.isEmpty = false := by
  cases l with
  | nil => exact absurd rfl h
  | cons a t => rfl

/-! ## Claims -/

/-- Claim C1: for every finding input (plugin name, description, list of
vulnerability identifiers), `map_vulnerability_to_controls` returns a
non-empty list of control identifiers that is sorted in lexicographic order
(duplicate-free, under the lexicographic `String` order), and — being a pure
function of its arguments — calling it twice on identical input yields
identical output. -/
theorem C1_resolve_nonempty_sorted_deterministic :
    ∀ (plugin_name description : String) (cves : List String),
      map_vulnerability_to_controls plugin_name description cves ≠ [] ∧
      List.Sorted (· ≤ ·) (map_vulnerability_to_controls plugin_name description cves) ∧
      (map_vulnerability_to_controls plugin_name description cves).Nodup ∧
      map_vulnerability_to_controls plugin_name description cves =
        map_vulnerability_to_controls plugin_name description cves := by
  intro n d cves
  rw [map_vulnerability_to_controls_eq]
  refine ⟨?_, sorted_pySortedSet _, nodup_pySortedSet _, rfl⟩
  apply pySortedSet_ne_nil
  split
  · simp
  · exact append_ne_nil_right (category_controls_ne_nil n d)

/-- Claim C10: the default-control branch of `map_vulnerability_to_controls`
(inserting "SI-2" when the union is empty) is unreachable: for every input
the category returned by `categorize_vulnerability` is a key of
`category_to_controls` with a nonempty control list, so the accumulated union
is already nonempty after the category lookup and the function equals its
no-default path. -/
theorem C10_default_branch_unreachable :
    ∀ (plugin_name description : String) (cves : List String),
      dictGetD category_to_controls (categorize_vulnerability plugin_name description) ≠ [] ∧
      ((cves.map (fun cve => dictGetD cve_to_controls (pyStrip (pyUpper cve)))).flatten ++
        dictGetD category_to_controls (categorize_vulnerability plugin_name description)).isEmpty
        = false ∧
      map_vulnerability_to_controls plugin_name description cves =
        pySortedSet
          ((cves.map (fun cve => dictGetD cve_to_controls (pyStrip (pyUpper cve)))).flatten ++
            dictGetD category_to_controls (categorize_vulnerability plugin_name description)) := by
  intro n d cves
  have hcat := category_controls_ne_nil n d
  have hne : (cves.map (fun cve => dictGetD cve_to_controls (pyStrip (pyUpper cve)))).flatten ++
      dictGetD category_to_controls (categorize_vulnerability n d) ≠ [] :=
    append_ne_nil_right hcat
  have hempty := isEmpty_false_of_ne_nil hne
  refine ⟨hcat, hempty, ?_⟩
  rw [map_vulnerability_to_controls_eq]
  simp [hempty]

/-- Claim C4: vulnerability-identifier lookup is invariant under letter case
(here, of the concrete Heartbleed identifier) because every identifier is
normalized by uppercasing and stripping before the table lookup: for every
finding, resolving with "cve-2014-0160" yields the same control list as
resolving with "CVE-2014-0160". -/
theorem C4_cve_case_invariant :
    ∀ (plugin_name description : String),
      pyStrip (pyUpper "cve-2014-0160") = pyStrip (pyUpper "CVE-2014-0160") ∧
      map_vulnerability_to_controls plugin_name description ["cve-2014-0160"] =
        map_vulnerability_to_controls plugin_name description ["CVE-2014-0160"] := by
  intro n d
  exact ⟨rfl, rfl⟩

/-- Claim C3: `categorize_vulnerability` is total — for every pair of plugin
name and description strings (including empty strings) it returns some
category from the fixed category set, never an error; and when no keyword of
any pattern matches either lowered string it returns the default category
"General Security". -/
theorem C3_classify_total_with_default :
    ∀ (plugin_name description : String),
      (categorize_vulnerability plugin_name description ∈
        "General Security" :: patterns.map Prod.fst) ∧
      ((∀ p ∈ patterns, ∀ keyword ∈ p.2,
          strIn keyword (pyLower plugin_name) = false ∧
          strIn keyword (pyLower description) = false) →
        categorize_vulnerability plugin_name description = "General Security") := by
  intro n d
  refine ⟨categorize_mem n d, ?_⟩
  intro h
  rw [categorize_vulnerability_eq]
  have hn : patterns.find? (fun p =>
      p.2.any (fun keyword =>
        strIn keyword (pyLower n) || strIn keyword (pyLower d))) = none := by
    rw [List.find?_eq_none]
    intro p hp hpred
    simp only [List.any_eq_true] at hpred
    obtain ⟨k, hk, hf⟩ := hpred
    have h2 := h p hp k hk
    simp [h2.1, h2.2] at hf
  rw [hn]

/-- Witness for C3 at the empty-string input. -/
theorem C3_witness :
    (categorize_vulnerability "" "" ∈ "General Security" :: patterns.map Prod.fst) ∧
    ((∀ p ∈ patterns, ∀ keyword ∈ p.2,
        strIn keyword (pyLower "") = false ∧ strIn keyword (pyLower "") = false) ∧
      categorize_vulnerability "" "" = "General Security") :=
  ⟨(C3_classify_total_with_default "" "").1,
   by decide,
   (C3_classify_total_with_default "" "").2 (by decide)⟩

/-- Claim C7: classification uses first-match precedence over the ordered
category table — a finding whose name contains "default password" (scanned
case-insensitively as a substring), with no keyword of any earlier category
(the three categories preceding "Default Credentials" in the table) present
in either field, classifies as "Default Credentials". -/
theorem C7_default_credentials_precedence :
    ∀ (plugin_name description : String),
      strIn "default password" (pyLower plugin_name) = true →
      (∀ p ∈ patterns.take 3, ∀ keyword ∈ p.2,
        strIn keyword (pyLower plugin_name) = false ∧
        strIn keyword (pyLower description) = false) →
      categorize_vulnerability plugin_name description = "Default Credentials" := by
  intro n d hdp hearly
  have e1 : (("Missing Patches",
      ["patch", "update", "security update", "kb", "hotfix", "cumulative update"]) :
      String × List String) ∈ patterns.take 3 := by decide
  have e2 : (("Weak SSL/TLS",
      ["ssl", "tls", "sslv2", "sslv3", "tlsv1.0", "tlsv1.1", "weak cipher", "cipher suite"]) :
      String × List String) ∈ patterns.take 3 := by decide
  have e3 : (("Weak Encryption",
      ["weak encryption", "des", "rc4", "md5", "sha1", "3des", "sweet32"]) :
      String × List String) ∈ patterns.take 3 := by decide
  have h1 := hearly _ e1
  have h2 := hearly _ e2
  have h3 := hearly _ e3
  have a1 : (["patch", "update", "security update", "kb", "hotfix", "cumulative update"].any
      (fun keyword => strIn keyword (pyLower n) || strIn keyword (pyLower d))) = false := by
    rw [List.any_eq_false]
    intro k hk
    have hx := h1 k hk
    simp [hx.1, hx.2]
  have a2 : (["ssl", "tls", "sslv2", "sslv3", "tlsv1.0", "tlsv1.1", "weak cipher", "cipher suite"].any
      (fun keyword => strIn keyword (pyLower n) || strIn keyword (pyLower d))) = false := by
    rw [List.any_eq_false]
    intro k hk
    have hx := h2 k hk
    simp [hx.1, hx.2]
  have a3 : (["weak encryption", "des", "rc4", "md5", "sha1", "3des", "sweet32"].any
      (fun keyword => strIn keyword (pyLower n) || strIn keyword (pyLower d))) = false := by
    rw [List.any_eq_false]
    intro k hk
    have hx := h3 k hk
    simp [hx.1, hx.2]
  rw [categorize_vulnerability_eq]
  simp only [patterns]
  rw [List.find?_cons_of_neg _ (by simp [a1]),
      List.find?_cons_of_neg _ (by simp [a2]),
      List.find?_cons_of_neg _ (by simp [a3]),
      List.find?_cons_of_pos _ (by
        simp only [List.any_eq_true]
        exact ⟨"default password", by decide, by simp [hdp]⟩)]

/-- Witness for C7 at a concrete finding name containing "default password"
and matching no earlier keyword. -/
theorem C7_witness :
    strIn "default password" (pyLower "Default Password Check") = true ∧
    (∀ p ∈ patterns.take 3, ∀ keyword ∈ p.2,
      strIn keyword (pyLower "Default Password Check") = false ∧
      strIn keyword (pyLower "") = false) ∧
    categorize_vulnerability "Default Password Check" "" = "Default Credentials" :=
  ⟨by decide, by decide,
   C7_default_credentials_precedence "Default Password Check" "" (by decide) (by decide)⟩

theorem containsSub_single {c : Char} {l : List Char} :
    containsSub l [c] = true ↔ c ∈ l := by
  induction l with
  | nil => simp [containsSub, listStartsWith]
  | cons h t ih =>
    simp only [containsSub, listStartsWith, List.mem_cons, Bool.or_eq_true,
      Bool.and_eq_true, beq_iff_eq, ih]
    constructor
    · rintro (⟨hc, -⟩ | hc)
      · exact Or.inl hc
      · exact Or.inr hc
    · rintro (hc | hc)
      · exact Or.inl ⟨hc, trivial⟩
      · exact Or.inr hc

theorem takeWhile_append_paren {base rest : List Char} (h : '(' ∉ base) :
    (base ++ '(' :: rest).takeWhile (fun c => c != '(') = base := by
  induction base with
  | nil => simp
  | cons a t ih =>
    have ha : a ≠ '(' := fun hc => h (hc ▸ List.mem_cons_self a t)
    have ht : '(' ∉ t := fun hc => h (List.mem_cons_of_mem a hc)
    simp only [List.cons_append, List.takeWhile_cons]
    simp [ha, ih ht]

/-- Claim C8: `get_control_details` strips a parenthesized enhancement suffix
(everything from the first "(") before the catalog lookup, so an identifier
built from a parenthesis-free base, an opening parenthesis and any suffix
resolves to the same `NISTControl` (or absence) as its base identifier; and
when the base identifier is not a key of `controls` the lookup returns `none`
rather than raising. -/
theorem C8_control_details_suffix_and_missing :
    (∀ (base rest : List Char), '(' ∉ base →
      get_control_details (String.mk (base ++ '(' :: rest)) =
        get_control_details (String.mk base)) ∧
    (∀ control_id : String, (∀ p ∈ controls, p.1 ≠ base_id_of control_id) →
      get_control_details control_id = none) := by
  constructor
  · intro base rest h
    unfold get_control_details base_id_of
    have hyes : containsSub (String.mk (base ++ '(' :: rest)).data ['('] = true :=
      containsSub_single.mpr (by simp)
    have hno : containsSub (String.mk base).data ['('] = false := by
      cases hc : containsSub (String.mk base).data ['('] with
      | false => rfl
      | true => exact absurd (containsSub_single.mp hc) h
    rw [hyes, hno]
    simp only [if_true, if_false, Bool.false_eq_true]
    rw [takeWhile_append_paren h]
  · intro control_id h
    unfold get_control_details dictGet
    rw [List.find?_eq_none.mpr]
    · rfl
    · intro p hp
      simp only [beq_iff_eq]
      exact h p hp

set_option maxRecDepth 8192 in
/-- Witness for C8: the enhancement-suffixed identifier "AC-2(10)" resolves
like its base "AC-2", and the absent identifier "XX-1" resolves to `none`. -/
theorem C8_witness :
    ('(' ∉ "AC-2".data ∧
      get_control_details (String.mk ("AC-2".data ++ '(' :: "10)".data)) =
        get_control_details (String.mk "AC-2".data)) ∧
    ((∀ p ∈ controls, p.1 ≠ base_id_of "XX-1") ∧
      get_control_details "XX-1" = none) :=
  ⟨⟨by decide, C8_control_details_suffix_and_missing.1 "AC-2".data "10)".data (by decide)⟩,
   ⟨by decide, C8_control_details_suffix_and_missing.2 "XX-1" (by decide)⟩⟩

/-- The last `host-ip` tag of a `HostProperties` block, if any: the loop in
`_parse_host_properties` lets a later matching tag overwrite an earlier
one, so the last one decides the final `ip`. -/
def lastHostIp : List XmlTag → Option XmlTag
  | [] => none
  | tag :: rest =>
    match lastHostIp rest with
    | some x => some x
    | none => if tag.name == "host-ip" then some tag else none

theorem apply_tag_ip (props : HostProperties) (tag : XmlTag) :
    (apply_tag props tag).ip =
      if tag.name == "host-ip" then pyOrStr tag.text "" else props.ip := by
  simp only [apply_tag]
  split_ifs <;> rfl

theorem foldl_apply_tag_ip (tags : List XmlTag) (props : HostProperties) :
    (tags.foldl apply_tag props).ip =
      match lastHostIp tags with
      | some tag => pyOrStr tag.text ""
      | none => props.ip := by
  induction tags generalizing props with
  | nil => rfl
  | cons t ts ih =>
    rw [List.foldl_cons, ih]
    cases hrest : lastHostIp ts with
    | some x => simp [lastHostIp, hrest]
    | none =>
      rw [apply_tag_ip]
      by_cases ht : (t.name == "host-ip") = true
      · simp [lastHostIp, hrest, ht]
      · simp [lastHostIp, hrest, ht]

theorem lastHostIp_eq_none {tags : List XmlTag}
    (h : ∀ tag ∈ tags, ¬ tag.name = "host-ip") : lastHostIp tags = none := by
  induction tags with
  | nil => rfl
  | cons t ts ih =>
    have hts := ih (fun x hx => h x (List.mem_cons_of_mem t hx))
    have hname : (t.name == "host-ip") = false := by
      simp only [beq_eq_false_iff_ne]
      exact h t (List.mem_cons_self t ts)
    simp [lastHostIp, hts, hname]

/-- `parse_host_properties` with its local `let`s unfolded. -/
theorem parse_host_properties_eq (host : HostElem) :
    parse_host_properties host =
      match host.host_properties with
      | some tags => tags.foldl apply_tag
          { hostname := "", ip := attrGetD host.attrs "name" "", os := "", mac_address := "",
            netbios_name := "", fqdn := "", scan_start := "", scan_end := "" }
      | none =>
          { hostname := "", ip := attrGetD host.attrs "name" "", os := "", mac_address := "",
            netbios_name := "", fqdn := "", scan_start := "", scan_end := "" } := rfl

/-- Claim C6: when the `HostProperties` block of a host contains a `host-ip` tag,
the parsed `HostProperties.ip` equals the value of that tag (the text of the
last such tag, falsy text normalized to the empty string); when no
`host-ip` tag is present, `ip` equals the own `name` key attribute of the
host element (with the empty string as default). -/
theorem C6_host_ip_precedence :
    (∀ (host : HostElem) (tags : List XmlTag) (tag : XmlTag),
      host.host_properties = some tags →
      lastHostIp tags = some tag →
      (parse_host_properties host).ip = pyOrStr tag.text "") ∧
    (∀ (host : HostElem) (tags : List XmlTag),
      host.host_properties = some tags →
      (∀ tag ∈ tags, ¬ tag.name = "host-ip") →
      (parse_host_properties host).ip = attrGetD host.attrs "name" "") := by
  constructor
  · intro host tags tag hsome hlast
    rw [parse_host_properties_eq, hsome, foldl_apply_tag_ip, hlast]
  · intro host tags hsome hno
    rw [parse_host_properties_eq, hsome, foldl_apply_tag_ip, lastHostIp_eq_none hno]

/-- Witness for C6: a host whose block has both a `host-ip` tag and a `name`
attribute takes the tag value; one without the tag takes the attribute. -/
theorem C6_witness :
    ((⟨[("name", "10.0.0.5")],
        some [⟨"host-ip", some "192.168.1.1"⟩, ⟨"hostname", some "web01"⟩], []⟩ :
        HostElem).host_properties =
          some [⟨"host-ip", some "192.168.1.1"⟩, ⟨"hostname", some "web01"⟩] ∧
      lastHostIp [⟨"host-ip", some "192.168.1.1"⟩, ⟨"hostname", some "web01"⟩] =
        some ⟨"host-ip", some "192.168.1.1"⟩ ∧
      (parse_host_properties
        ⟨[("name", "10.0.0.5")],
          some [⟨"host-ip", some "192.168.1.1"⟩, ⟨"hostname", some "web01"⟩], []⟩).ip =
        pyOrStr (some "192.168.1.1") "") ∧
    ((⟨[("name", "10.0.0.5")], some [⟨"hostname", some "web01"⟩], []⟩ :
        HostElem).host_properties = some [⟨"hostname", some "web01"⟩] ∧
      (∀ tag ∈ [(⟨"hostname", some "web01"⟩ : XmlTag)], ¬ tag.name = "host-ip") ∧
      (parse_host_properties
        ⟨[("name", "10.0.0.5")], some [⟨"hostname", some "web01"⟩], []⟩).ip =
        attrGetD [("name", "10.0.0.5")] "name" "") :=
  ⟨⟨rfl, rfl,
    C6_host_ip_precedence.1
      ⟨[("name", "10.0.0.5")],
        some [⟨"host-ip", some "192.168.1.1"⟩, ⟨"hostname", some "web01"⟩], []⟩
      [⟨"host-ip", some "192.168.1.1"⟩, ⟨"hostname", some "web01"⟩]
      ⟨"host-ip", some "192.168.1.1"⟩ rfl rfl⟩,
   ⟨rfl, by decide,
    C6_host_ip_precedence.2
      ⟨[("name", "10.0.0.5")], some [⟨"hostname", some "web01"⟩], []⟩
      [⟨"hostname", some "web01"⟩] rfl (by decide)⟩⟩

/-- Claim C9: for every successfully parsed document, the derived report
totals satisfy `total_vulnerabilities = sum of per-host finding-list lengths`
and `total_hosts = number of hosts`. -/
theorem C9_totals_invariant :
    ∀ (doc : NessusDoc) (r : NessusReport), parse doc = Except.ok r →
      r.total_vulnerabilities = (r.hosts.map (fun h => h.vulnerabilities.length)).sum ∧
      r.total_hosts = r.hosts.length := by
  intro doc r h
  unfold parse at h
  cases hp : parse_hosts_list doc.report_hosts with
  | error e => rw [hp] at h; cases h
  | ok hosts =>
    rw [hp] at h
    cases h
    exact ⟨rfl, rfl⟩

/-- Witness for C9 on a concrete one-host document with no findings. -/
theorem C9_witness :
    (⟨"Unknown Policy", some "Unknown Scan", "", "",
      [⟨"h1", ⟨"", "h1", "", "", "", "", "", ""⟩, []⟩], 1, 0⟩ :
      NessusReport).total_vulnerabilities =
        (((⟨"Unknown Policy", some "Unknown Scan", "", "",
          [⟨"h1", ⟨"", "h1", "", "", "", "", "", ""⟩, []⟩], 1, 0⟩ :
          NessusReport)).hosts.map (fun h => h.vulnerabilities.length)).sum ∧
    (⟨"Unknown Policy", some "Unknown Scan", "", "",
      [⟨"h1", ⟨"", "h1", "", "", "", "", "", ""⟩, []⟩], 1, 0⟩ :
      NessusReport).total_hosts =
        (⟨"Unknown Policy", some "Unknown Scan", "", "",
          [⟨"h1", ⟨"", "h1", "", "", "", "", "", ""⟩, []⟩], 1, 0⟩ :
          NessusReport).hosts.length :=
  C9_totals_invariant ⟨none, none, [⟨[("name", "h1")], none, []⟩]⟩ _ rfl

/-- Claim C5 (code bug): `_get_text` is meant to always return a string —
missing sub-element gives the empty string — but a present, empty sub-element (whose
ElementTree `.text` is Python `None`) makes it return `None`, contradicting
its `-> str` annotation and the `str`-typed dataclass fields. Evaluated
here: an empty `<description/>` yields `none`, a missing one yields
`some ""`, and the `None` lands in the parsed `Vulnerability.description`. -/
theorem C5_get_text_returns_none :
    get_text ⟨[], [⟨"description", none⟩]⟩ "description" = none ∧
    get_text ⟨[], []⟩ "description" = some "" ∧
    (parse_report_item ⟨[], [⟨"description", none⟩]⟩).map
      (fun v => v.description) = Except.ok none :=
  ⟨rfl, rfl, rfl⟩

/-- Counterexample to claim C2 as stated: a finding whose severity attribute
is the non-numeric string "high" does not yield severity 0 — it makes the
whole document parse fail — and a finding with severity attribute "7"
parses to severity 7, which is outside the five levels 0..4. -/
theorem C2_counterexample :
    parse ⟨none, none, [⟨[("name", "10.0.0.1")], none, [⟨[("severity", "high")], []⟩]⟩]⟩ =
      Except.error "Error parsing Nessus file: invalid literal for int" ∧
    (parse_report_item ⟨[("severity", "7")], []⟩).map (fun v => v.severity) =
      Except.ok 7 ∧
    (7 : Int) ∉ ([0, 1, 2, 3, 4] : List Int) :=
  ⟨rfl, rfl, by decide⟩

theorem parse_items_not_ok {items : List ReportItemElem} {item : ReportItemElem}
    (hmem : item ∈ items)
    (herr : pyInt (attrGetD item.attrs "severity" "0") = none) :
    (parse_items items).isOk = false := by
  induction items with
  | nil => cases hmem
  | cons a rest ih =>
    unfold parse_items
    cases hmem with
    | head =>
      unfold parse_report_item
      rw [herr]
      rfl
    | tail _ hm =>
      have hrest := ih hm
      cases hpa : parse_report_item a with
      | error e => rfl
      | ok v =>
        cases hpr : parse_items rest with
        | error e => rfl
        | ok vs => rw [hpr] at hrest; simp [Except.isOk, Except.toBool] at hrest

theorem parse_hosts_list_not_ok {hosts : List HostElem} {host : HostElem}
    (hmem : host ∈ hosts)
    (herr : (parse_host_vulnerabilities host).isOk = false) :
    (parse_hosts_list hosts).isOk = false := by
  induction hosts with
  | nil => cases hmem
  | cons a rest ih =>
    unfold parse_hosts_list
    cases hmem with
    | head =>
      cases hpa : parse_host_vulnerabilities host with
      | error e => rfl
      | ok v => rw [hpa] at herr; simp [Except.isOk, Except.toBool] at herr
    | tail _ hm =>
      have hrest := ih hm
      cases hpa : parse_host_vulnerabilities a with
      | error e => rfl
      | ok v =>
        cases hpr : parse_hosts_list rest with
        | error e => rfl
        | ok hs => rw [hpr] at hrest; simp [Except.isOk, Except.toBool] at hrest

/-- Claim C2, amended to what the code does: a finding record with no
severity attribute parses with severity 0 (Info) and does not fail; a
severity attribute that `int()` accepts becomes that integer verbatim (it is
not clamped to the five levels 0..4); and a non-numeric severity attribute
raises, which makes the parse of the whole document fail. -/
theorem C2_amended_severity :
    (∀ item : ReportItemElem,
      item.attrs.find? (fun p => p.1 == "severity") = none →
      (parse_report_item item).map (fun v => v.severity) = Except.ok 0) ∧
    (∀ (item : ReportItemElem) (n : Int),
      pyInt (attrGetD item.attrs "severity" "0") = some n →
      (parse_report_item item).map (fun v => v.severity) = Except.ok n) ∧
    (∀ (doc : NessusDoc) (host : HostElem) (item : ReportItemElem),
      host ∈ doc.report_hosts → item ∈ host.report_items →
      pyInt (attrGetD item.attrs "severity" "0") = none →
      (parse doc).isOk = false) := by
  refine ⟨?_, ?_, ?_⟩
  · intro item hfind
    unfold parse_report_item attrGetD
    rw [hfind]
    rfl
  · intro item n hint
    unfold parse_report_item
    rw [hint]
    rfl
  · intro doc host item hhost hitem herr
    have hv : (parse_host_vulnerabilities host).isOk = false :=
      parse_items_not_ok hitem herr
    have hl := parse_hosts_list_not_ok hhost hv
    unfold parse
    cases hp : parse_hosts_list doc.report_hosts with
    | error e => rfl
    | ok hs => rw [hp] at hl; simp [Except.isOk, Except.toBool] at hl

/-- Witness for C2 (amended): a finding without severity parses as 0, one
with severity "3" parses as 3, and a document containing a finding with
severity "high" fails to parse. -/
theorem C2_witness :
    ((⟨[("pluginID", "1")], []⟩ : ReportItemElem).attrs.find?
        (fun p => p.1 == "severity") = none ∧
      (parse_report_item ⟨[("pluginID", "1")], []⟩).map
        (fun v => v.severity) = Except.ok 0) ∧
    (pyInt (attrGetD ([("severity", "3")] : List (String × String)) "severity" "0") =
        some 3 ∧
      (parse_report_item ⟨[("severity", "3")], []⟩).map
        (fun v => v.severity) = Except.ok 3) ∧
    ((⟨none, none, [⟨[], none, [⟨[("severity", "high")], []⟩]⟩]⟩ : NessusDoc).report_hosts =
        [⟨[], none, [⟨[("severity", "high")], []⟩]⟩] ∧
      pyInt (attrGetD ([("severity", "high")] : List (String × String)) "severity" "0") =
        none ∧
      (parse ⟨none, none, [⟨[], none, [⟨[("severity", "high")], []⟩]⟩]⟩).isOk = false) :=
  ⟨⟨rfl, C2_amended_severity.1 ⟨[("pluginID", "1")], []⟩ rfl⟩,
   ⟨rfl, C2_amended_severity.2.1 ⟨[("severity", "3")], []⟩ 3 rfl⟩,
   ⟨rfl, rfl,
    C2_amended_severity.2.2 ⟨none, none, [⟨[], none, [⟨[("severity", "high")], []⟩]⟩]⟩
      ⟨[], none, [⟨[("severity", "high")], []⟩]⟩ ⟨[("severity", "high")], []⟩
      (by decide) (by decide) rfl⟩⟩
